import Mathlib

/-!
# Verification of the Pilot Browser search aggregation engine

Shallow embedding of `src/backend/app/services/search_service.py`,
`src/backend/app/models/search.py` (the pydantic `SearchQuery` constraints) and
the `/search` route of `src/backend/app/api/search.py`, together with proofs
settling the frozen claims about the multi-provider search aggregator.

Python dynamic values are modelled by the inductive `PyVal`; Python floats are
modelled by rationals (every score constant in the source is a short decimal,
and every comparison a claim depends on is sign/order-robust under this
modelling).  Fallible Python code is modelled in the `Except PyErr` monad.
-/

/-- A Python runtime value as it occurs in provider JSON payloads and in the
normalizer outputs: `None`, `bool`, `int`, `float` (modelled as `ℚ`), `str`,
`list`, and `dict` (modelled as an association list with string keys, which is
the shape of every decoded JSON object the service handles). -/
inductive PyVal where
  | none
  | bool (b : Bool)
  | int (n : Int)
  | float (q : ℚ)
  | str (s : String)
  | list (xs : List PyVal)
  | dict (kvs : List (String × PyVal))

/-- Python exceptions that the search service code can raise or catch. -/
inductive PyErr where
  | attributeError (msg : String)
  | typeError (msg : String)
  | valueError (msg : String)
  | keyError (key : String)
  | indexError (msg : String)
  | zeroDivisionError
deriving DecidableEq, Repr

/-- `str(e)` for an exception `e` (for a `KeyError`, CPython renders the
`repr` of the missing key). -/
def pyErrStr : PyErr → String
  | .attributeError m => m
  | .typeError m => m
  | .valueError m => m
  | .keyError k => "'" ++ k ++ "'"
  | .indexError m => m
  | .zeroDivisionError => "integer division or modulo by zero"

/-- The CPython type name of a value, used in error messages. -/
def pyTypeName : PyVal → String
  | .none => "NoneType"
  | .bool _ => "bool"
  | .int _ => "int"
  | .float _ => "float"
  | .str _ => "str"
  | .list _ => "list"
  | .dict _ => "dict"

/-- Python truthiness (`bool(v)`). -/
def pyTruthy : PyVal → Bool
  | .none => false
  | .bool b => b
  | .int n => n != 0
  | .float q => q != 0
  | .str s => s != ""
  | .list xs => !xs.isEmpty
  | .dict kvs => !kvs.isEmpty

/-- The numeric value of a Python number (`bool` counts as `0`/`1`), if any. -/
def pyNum : PyVal → Option ℚ
  | .bool b => some (if b then 1 else 0)
  | .int n => some (n : ℚ)
  | .float q => some q
  | _ => Option.none

mutual
/-- Python `==` on the values reachable in this service.  Strings compare as
strings, numbers compare numerically across `bool`/`int`/`float`, `None` only
equals `None`, lists compare pointwise, and dictionaries compare pointwise in
association order (CPython compares dicts order-insensitively, but every value
the service ever compares with `==`/set membership is a string or number, where
this function is exact). -/
def pyEq : PyVal → PyVal → Bool
  | .str a, .str b => a == b
  | .none, .none => true
  | .list xs, .list ys => pyEqList xs ys
  | .dict xs, .dict ys => pyEqDict xs ys
  | a, b =>
    match pyNum a, pyNum b with
    | some x, some y => x == y
    | _, _ => false

/-- Pointwise `==` on Python lists. -/
def pyEqList : List PyVal → List PyVal → Bool
  | [], [] => true
  | x :: xs, y :: ys => pyEq x y && pyEqList xs ys
  | _, _ => false

/-- Pointwise `==` on Python dict entries. -/
def pyEqDict : List (String × PyVal) → List (String × PyVal) → Bool
  | [], [] => true
  | (k, v) :: xs, (k2, v2) :: ys => k == k2 && pyEq v v2 && pyEqDict xs ys
  | _, _ => false
end

mutual
/-- Python `str(v)` (as used by f-string substitution in the Reddit
normalizer).  The decimal rendering of a float abbreviates CPython's float
repr; no claim depends on it. -/
def pyStr : PyVal → String
  | .none => "None"
  | .bool b => if b then "True" else "False"
  | .int n => toString n
  | .float q => toString q
  | .str s => s
  | .list xs => "[" ++ ", ".intercalate (pyReprList xs) ++ "]"
  | .dict kvs => "\x7b" ++ ", ".intercalate (pyReprDict kvs) ++ "\x7d"

/-- Python `repr(v)` for values nested inside containers. -/
def pyRepr : PyVal → String
  | .str s => "'" ++ s ++ "'"
  | v => pyStr v

/-- `repr` of each element of a list. -/
def pyReprList : List PyVal → List String
  | [] => []
  | x :: xs => pyRepr x :: pyReprList xs

/-- `repr` of each entry of a dict. -/
def pyReprDict : List (String × PyVal) → List String
  | [] => []
  | (k, v) :: xs => ("'" ++ k ++ "': " ++ pyRepr v) :: pyReprDict xs
end

/-- Python `d.get(key, default)`: returns the stored value (even a stored
`None`) when the key is present, the default when absent, and raises
`AttributeError` when the receiver is not a dict. -/
def pyGet (v : PyVal) (key : String) (default : PyVal) : Except PyErr PyVal :=
  match v with
  | .dict kvs =>
    match kvs.lookup key with
    | some w => .ok w
    | Option.none => .ok default
  | other =>
    .error (.attributeError
      ("'" ++ pyTypeName other ++ "' object has no attribute 'get'"))

/-- Python iteration (`for x in v`): lists yield their elements, strings their
characters, dicts their keys; other values raise `TypeError`. -/
def pyIterate (v : PyVal) : Except PyErr (List PyVal) :=
  match v with
  | .list xs => .ok xs
  | .str s => .ok (s.data.map (fun c => .str c.toString))
  | .dict kvs => .ok (kvs.map (fun kv => .str kv.1))
  | other =>
    .error (.typeError ("'" ++ pyTypeName other ++ "' object is not iterable"))

/-- Python `key in v` for a string `key`: dict key membership, list element
membership, substring test on strings; `TypeError` otherwise. -/
def pyContains (key : String) (v : PyVal) : Except PyErr Bool :=
  match v with
  | .dict kvs => .ok (kvs.any (fun kv => kv.1 == key))
  | .list xs =>
    .ok (xs.any (fun x => match x with | .str s => s == key | _ => false))
  | .str s => .ok (decide (List.IsInfix key.data s.data))
  | other =>
    .error (.typeError ("argument of type '" ++ pyTypeName other
      ++ "' is not iterable"))

/-- Python `v[key]` for a string key: dict subscription (`KeyError` when the
key is missing), `TypeError` on anything else. -/
def pySubscript (v : PyVal) (key : String) : Except PyErr PyVal :=
  match v with
  | .dict kvs =>
    match kvs.lookup key with
    | some w => .ok w
    | Option.none => .error (.keyError key)
  | other =>
    .error (.typeError ("'" ++ pyTypeName other
      ++ "' object is not subscriptable"))

/-- Python `v[0]`: head of a list (`IndexError` when empty), `TypeError`
otherwise (the source only indexes with the literal `0`). -/
def pyIndexZero (v : PyVal) : Except PyErr PyVal :=
  match v with
  | .list [] => .error (.indexError "list index out of range")
  | .list (x :: _) => .ok x
  | other =>
    .error (.typeError ("'" ++ pyTypeName other
      ++ "' object is not subscriptable"))

/-- Python `int(v)`: identity on ints, `0`/`1` on bools, truncation toward
zero on floats, decimal parse on strings (sign and digits; CPython's
whitespace/underscore lenience is not modelled, no claim depends on it),
`TypeError`/`ValueError` otherwise. -/
def pyIntCast (v : PyVal) : Except PyErr Int :=
  match v with
  | .int n => .ok n
  | .bool b => .ok (if b then 1 else 0)
  | .float q => .ok (if 0 ≤ q then ⌊q⌋ else -⌊-q⌋)
  | .str s =>
    match s.toInt? with
    | some n => .ok n
    | Option.none =>
      .error (.valueError ("invalid literal for int() with base 10: '"
        ++ s ++ "'"))
  | other =>
    .error (.typeError ("int() argument must be a string or a number, not '"
      ++ pyTypeName other ++ "'"))

/-- Python `v[:200]` as applied to the Reddit `selftext`: string slices keep
the first 200 characters, list slices the first 200 elements; other values
raise `TypeError`. -/
def pySliceTo200 (v : PyVal) : Except PyErr PyVal :=
  match v with
  | .str s => .ok (.str (String.mk (s.data.take 200)))
  | .list xs => .ok (.list (xs.take 200))
  | other =>
    .error (.typeError ("'" ++ pyTypeName other
      ++ "' object is not subscriptable"))

/-- Python `v + suffix` for a string literal suffix (`TypeError` unless `v` is
a string). -/
def pyAddStr (v : PyVal) (suffix : String) : Except PyErr PyVal :=
  match v with
  | .str s => .ok (.str (s ++ suffix))
  | other =>
    .error (.typeError ("can only concatenate str (not \x22"
      ++ pyTypeName other ++ "\x22) to str"))

/-! ## URL encoding and template substitution

The service imports `urllib.parse.quote_plus` and substitutes request values
into the provider parameter/header templates with Python's `str.format`.
-/

/-- A hexadecimal digit in uppercase, as produced by `urllib.parse.quote`. -/
def hexDigit (n : Nat) : Char :=
  if n < 10 then Char.ofNat (48 + n) else Char.ofNat (55 + n)

/-- The UTF-8 bytes of a character (by Unicode scalar value). -/
def utf8Bytes (c : Char) : List Nat :=
  let n := c.toNat
  if n < 0x80 then [n]
  else if n < 0x800 then
    [0xC0 + n / 0x40, 0x80 + n % 0x40]
  else if n < 0x10000 then
    [0xE0 + n / 0x1000, 0x80 + n / 0x40 % 0x40, 0x80 + n % 0x40]
  else
    [0xF0 + n / 0x40000, 0x80 + n / 0x1000 % 0x40, 0x80 + n / 0x40 % 0x40,
      0x80 + n % 0x40]

/-- Characters `urllib.parse.quote` never escapes: ASCII alphanumerics and
`_`, `.`, `-`, `~`. -/
def quoteSafe (c : Char) : Bool :=
  c.isAlphanum || c == '_' || c == '.' || c == '-' || c == '~'

/-- Percent-encoding of one character under `quote_plus`: safe characters pass
through, a space becomes `+`, anything else becomes `%XX` per UTF-8 byte. -/
def quotePlusChar (c : Char) : List Char :=
  if quoteSafe c then [c]
  else if c = ' ' then ['+']
  else (utf8Bytes c).flatMap (fun b => ['%', hexDigit (b / 16), hexDigit (b % 16)])

/-- `urllib.parse.quote_plus`, the encoding the service applies to the search
query before template substitution. -/
def quote_plus (s : String) : String :=
  String.mk ((s.data.map quotePlusChar).flatten)

mutual
/-- Scanner for Python `str.format` on the keyword arguments `args`:
`{name}` is replaced by the value bound to `name` (`KeyError` when absent),
`\x7b\x7b`/`\x7d\x7d` escape to literal braces, and an unmatched brace raises
`ValueError` exactly as CPython does.  Positional fields and format specs do
not occur in any template of the provider registry and are not modelled. -/
def formatScan (args : List (String × String)) : List Char → Except PyErr String
  | [] => .ok ""
  | '{' :: '{' :: rest => (fun t => "\x7b" ++ t) <$> formatScan args rest
  | '}' :: '}' :: rest => (fun t => "\x7d" ++ t) <$> formatScan args rest
  | '{' :: rest => formatField args rest ""
  | '}' :: _ => .error (.valueError "Single '\x7d' encountered in format string")
  | c :: rest => (fun t => c.toString ++ t) <$> formatScan args rest

/-- Collects a `{name}` field of the format string and substitutes it. -/
def formatField (args : List (String × String)) :
    List Char → String → Except PyErr String
  | [], _ => .error (.valueError "Single '\x7b' encountered in format string")
  | '}' :: rest, name =>
    match args.lookup name with
    | some v => (fun t => v ++ t) <$> formatScan args rest
    | Option.none => .error (.keyError name)
  | c :: rest, name => formatField args rest (name.push c)
end

/-- Python `template.format(**args)` on a template string. -/
def formatTemplate (t : String) (args : List (String × String)) :
    Except PyErr String :=
  formatScan args t.data

/-- One parameter/header value as the dispatcher computes it
(`search_service.py` lines 281-298 and 300-311): the formatted template, or
the literal template unchanged when formatting raises `KeyError`/`IndexError`
(any other exception propagates, as the `except (KeyError, IndexError)`
clause does not catch it). -/
def format_param (t : String) (args : List (String × String)) :
    Except PyErr String :=
  match formatTemplate t args with
  | .ok v => .ok v
  | .error (.keyError _) => .ok t
  | .error (.indexError _) => .ok t
  | .error e => .error e

/-- Formats every entry of a parameter/header template mapping in order. -/
def formatParamsList (templates : List (String × String))
    (args : List (String × String)) : Except PyErr (List (String × String)) :=
  match templates with
  | [] => .ok []
  | (k, t) :: rest =>
    match format_param t args with
    | .error e => .error e
    | .ok v =>
      match formatParamsList rest args with
      | .error e => .error e
      | .ok vs => .ok ((k, v) :: vs)

/-! ## Data model and provider registry -/

/-- One normalized search result, the dict each response normalizer appends to
its `items` list.  The `provider` and `score` entries are always set by the
normalizers (a provider-id string and a float), the remaining entries carry
whatever Python value the payload supplied.  `image_url` is present only when
the normalizer's conditional added it. -/
structure ResultItem where
  title : PyVal
  url : PyVal
  snippet : PyVal
  provider : String
  score : ℚ
  metadata : List (String × PyVal)
  image_url : Option PyVal := Option.none

/-- The dict a provider call resolves to: the normalizer output
`\x7b"items": ..., "total_results": ...\x7d`, or the dispatcher's error dict
`\x7b"items": [], "error": ...\x7d` (which carries no `total_results`), or the
fallback normalizer's dict which carries all three keys.  An `"items"` key is
present in every variant, which is what `search` tests for. -/
structure ParserOut where
  items : List ResultItem
  total_results : Option PyVal := Option.none
  error : Option String := Option.none

/-- One entry of the `SEARCH_PROVIDERS` registry. -/
structure ProviderConfig where
  name : String
  url : String
  params : List (String × String)
  headers : List (String × String)
  responseParserKey : String

/-- The `SEARCH_PROVIDERS` registry of `search_service.py` lines 23-105,
templates verbatim. -/
def SEARCH_PROVIDERS_config : String → Option ProviderConfig
  | "google" => some
    { name := "Google"
      url := "https://www.googleapis.com/customsearch/v1"
      params := [("key", "{api_key}"), ("cx", "{search_engine_id}"),
        ("q", "{query}"), ("num", "{limit}"), ("start", "{offset}"),
        ("safe", "{safe_search}"), ("hl", "{language}"), ("gl", "{region}")]
      headers := [("Accept", "application/json")]
      responseParserKey := "parse_google_results" }
  | "bing" => some
    { name := "Bing"
      url := "https://api.bing.microsoft.com/v7.0/search"
      params := [("q", "{query}"), ("count", "{limit}"),
        ("offset", "{offset}"), ("safeSearch", "{safe_search}"),
        ("mkt", "{region}-{language}")]
      headers := [("Ocp-Apim-Subscription-Key", "{api_key}"),
        ("Accept", "application/json")]
      responseParserKey := "parse_bing_results" }
  | "duckduckgo" => some
    { name := "DuckDuckGo"
      url := "https://api.duckduckgo.com/"
      params := [("q", "{query}"), ("format", "json"), ("no_html", "1"),
        ("no_redirect", "1"), ("kp", "{safe_search}"), ("kl", "{language}"),
        ("region", "{region}")]
      headers := [("Accept", "application/json")]
      responseParserKey := "parse_duckduckgo_results" }
  | "reddit" => some
    { name := "Reddit"
      url := "https://www.reddit.com/search.json"
      params := [("q", "{query}"), ("limit", "{limit}"), ("after", "{offset}"),
        ("restrict_sr", "0"), ("sort", "relevance")]
      headers := [("User-Agent", "PilotBrowser/1.0")]
      responseParserKey := "parse_reddit_results" }
  | "github" => some
    { name := "GitHub"
      url := "https://api.github.com/search/repositories"
      params := [("q", "{query}"), ("per_page", "{limit}"), ("page", "{page}"),
        ("sort", "stars"), ("order", "desc")]
      headers := [("Accept", "application/vnd.github.v3+json")]
      responseParserKey := "parse_github_results" }
  | _ => Option.none

/-- The values of the `SearchProvider` enum in `models/search.py` (the last
three are declared but have no registry entry). -/
def allProviderValues : List String :=
  ["google", "bing", "duckduckgo", "reddit", "github",
    "twitter", "youtube", "wikipedia"]

/-- `getattr(settings, f"\x7bprovider.upper()\x7d_API_KEY", "")`: the
`Settings` class in `core/config.py` defines no `*_API_KEY` attribute for any
search provider, so the lookup always yields the default `""`. -/
def settings_api_key (provider : String) : String := ""

/-- `getattr(settings, f"\x7bprovider.upper()\x7d_SEARCH_ENGINE_ID", "")`:
likewise always the default `""`. -/
def settings_search_engine_id (provider : String) : String := ""

/-! ## Response normalizers (`search_service.py` lines 356-517) -/

/-- The conditional thumbnail extraction of `parse_google_results` (lines
374-376): the lazily evaluated condition
`"pagemap" in item and "cse_image" in item["pagemap"] and
item["pagemap"]["cse_image"]` followed by
`item["pagemap"]["cse_image"][0].get("src", "")`, with each subscription
re-evaluated exactly as the source expression does. -/
def google_image_extract (item : PyVal) : Except PyErr (Option PyVal) := do
  let hasPm ← pyContains "pagemap" item
  if hasPm then do
    let pm ← pySubscript item "pagemap"
    let hasCse ← pyContains "cse_image" pm
    if hasCse then do
      let pmB ← pySubscript item "pagemap"
      let cse ← pySubscript pmB "cse_image"
      if pyTruthy cse then do
        let pmC ← pySubscript item "pagemap"
        let cseC ← pySubscript pmC "cse_image"
        let c0 ← pyIndexZero cseC
        let src ← pyGet c0 "src" (.str "")
        pure (some src)
      else pure Option.none
    else pure Option.none
  else pure Option.none

/-- Loop body of `parse_google_results`: one `ResultItem` per payload item,
with score `1.0 - i * 0.01` at enumerate index `i` (represented exactly as
the rational `(100 - i)/100`) and the conditional `pagemap`/`cse_image`
thumbnail extraction. -/
def googleItemsLoop (provider : String) :
    List PyVal → Nat → Except PyErr (List ResultItem)
  | [], _ => .ok []
  | item :: rest, i => do
    let title ← pyGet item "title" (.str "")
    let url ← pyGet item "link" (.str "")
    let snippet ← pyGet item "snippet" (.str "")
    let displayLink ← pyGet item "displayLink" (.str "")
    let mime ← pyGet item "mime" (.str "")
    let fileFormat ← pyGet item "fileFormat" (.str "")
    let image ← google_image_extract item
    let tail ← googleItemsLoop provider rest (i + 1)
    .ok ({ title := title, url := url, snippet := snippet,
           provider := provider, score := mkRat (100 - (i : Int)) 100,
           metadata := [("displayLink", displayLink), ("mime", mime),
             ("fileFormat", fileFormat)],
           image_url := image } :: tail)

/-- `parse_google_results` (lines 356-383): items from `data["items"]`, total
from `int(data["searchInformation"]["totalResults"])`. -/
def parse_google_results (data : PyVal) (provider query : String) :
    Except PyErr ParserOut := do
  let raw ← pyGet data "items" (.list [])
  let xs ← pyIterate raw
  let items ← googleItemsLoop provider xs 0
  let si ← pyGet data "searchInformation" (.dict [])
  let trRaw ← pyGet si "totalResults" (.int 0)
  let tr ← pyIntCast trRaw
  .ok { items := items, total_results := some (.int tr) }

/-- Loop body of `parse_bing_results`, score `1.0 - i * 0.01` (the rational
`(100 - i)/100`), conditional `thumbnailUrl` extraction. -/
def bingItemsLoop (provider : String) :
    List PyVal → Nat → Except PyErr (List ResultItem)
  | [], _ => .ok []
  | item :: rest, i => do
    let title ← pyGet item "name" (.str "")
    let url ← pyGet item "url" (.str "")
    let snippet ← pyGet item "snippet" (.str "")
    let displayUrl ← pyGet item "displayUrl" (.str "")
    let datePublished ← pyGet item "datePublished" .none
    let isNavigational ← pyGet item "isNavigational" (.bool false)
    let hasThumb ← pyContains "thumbnailUrl" item
    let image ←
      (if hasThumb then do
        let v ← pySubscript item "thumbnailUrl"
        pure (some v)
      else pure Option.none)
    let tail ← bingItemsLoop provider rest (i + 1)
    .ok ({ title := title, url := url, snippet := snippet,
           provider := provider, score := mkRat (100 - (i : Int)) 100,
           metadata := [("displayUrl", displayUrl),
             ("datePublished", datePublished),
             ("isNavigational", isNavigational)],
           image_url := image } :: tail)

/-- `parse_bing_results` (lines 385-412). -/
def parse_bing_results (data : PyVal) (provider query : String) :
    Except PyErr ParserOut := do
  let wp ← pyGet data "webPages" (.dict [])
  let raw ← pyGet wp "value" (.list [])
  let xs ← pyIterate raw
  let items ← bingItemsLoop provider xs 0
  let wpB ← pyGet data "webPages" (.dict [])
  let tot ← pyGet wpB "totalEstimatedMatches" (.int 0)
  .ok { items := items, total_results := some tot }

/-- First loop of `parse_duckduckgo_results` over `data["Results"]`, score
`0.9 - i * 0.01` (the rational `(90 - i)/100`). -/
def duckduckgoResultsLoop (provider : String) :
    List PyVal → Nat → Except PyErr (List ResultItem)
  | [], _ => .ok []
  | result :: rest, i => do
    let title ← pyGet result "Text" (.str "")
    let url ← pyGet result "FirstURL" (.str "")
    let snippet ← pyGet result "Result" (.str "")
    let icon ← pyGet result "Icon" (.dict [])
    let tail ← duckduckgoResultsLoop provider rest (i + 1)
    .ok ({ title := title, url := url, snippet := snippet,
           provider := provider, score := mkRat (90 - (i : Int)) 100,
           metadata := [("icon", icon)] } :: tail)

/-- Second loop of `parse_duckduckgo_results` over `data["RelatedTopics"]`:
topics lacking a `FirstURL` key are skipped but still consume their enumerate
index; kept topics score `0.8 - i * 0.005` (the rational `(800 - 5i)/1000`)
and carry the provider id with the `_related` suffix. -/
def duckduckgoRelatedLoop (provider : String) :
    List PyVal → Nat → Except PyErr (List ResultItem)
  | [], _ => .ok []
  | topic :: rest, i => do
    let hasUrl ← pyContains "FirstURL" topic
    if hasUrl then do
      let title ← pyGet topic "Text" (.str "")
      let url ← pyGet topic "FirstURL" (.str "")
      let snippet ← pyGet topic "Text" (.str "")
      let icon ← pyGet topic "Icon" (.dict [])
      let tail ← duckduckgoRelatedLoop provider rest (i + 1)
      .ok ({ title := title, url := url, snippet := snippet,
             provider := provider ++ "_related",
             score := mkRat (800 - 5 * (i : Int)) 1000,
             metadata := [("icon", icon)] } :: tail)
    else
      duckduckgoRelatedLoop provider rest (i + 1)

/-- `parse_duckduckgo_results` (lines 414-448): web results then related
topics; the reported total is the item count since DuckDuckGo provides none. -/
def parse_duckduckgo_results (data : PyVal) (provider query : String) :
    Except PyErr ParserOut := do
  let r ← pyGet data "Results" (.list [])
  let xs ← pyIterate r
  let items1 ← duckduckgoResultsLoop provider xs 0
  let rt ← pyGet data "RelatedTopics" (.list [])
  let ys ← pyIterate rt
  let items2 ← duckduckgoRelatedLoop provider ys 0
  let items := items1 ++ items2
  .ok { items := items, total_results := some (.int (items.length : Int)) }

/-- The skip condition of the Reddit loop (line 458):
`post.get("kind") != "t3" or not post_data.get("url")`, with Python's
short-circuit evaluation (the `url` lookup only happens when the kind
matched). -/
def reddit_should_skip (post post_data : PyVal) : Except PyErr Bool := do
  let kind ← pyGet post "kind" .none
  if !(pyEq kind (.str "t3")) then pure true
  else do
    let urlv ← pyGet post_data "url" .none
    pure (!(pyTruthy urlv))

/-- The Reddit snippet expression (line 464):
`post_data.get("selftext", "")[:200] + "..." if post_data.get("selftext")
else ""` - condition first, then the slice and concatenation. -/
def reddit_snippet (post_data : PyVal) : Except PyErr PyVal := do
  let st ← pyGet post_data "selftext" .none
  if pyTruthy st then do
    let stB ← pyGet post_data "selftext" (.str "")
    let sliced ← pySliceTo200 stB
    pyAddStr sliced "..."
  else pure (PyVal.str "")

/-- Loop body of `parse_reddit_results`: skips entries whose `kind` is not
`"t3"` or whose `url` is falsy (the skip consumes the enumerate index, so
scores of kept posts jump across skipped ones); the result URL is the
f-string over `permalink`, and the snippet is the `selftext` sliced to 200
characters with `"..."` appended when `selftext` is truthy; kept posts score
`0.8 - i * 0.01` (the rational `(80 - i)/100`). -/
def redditItemsLoop (provider : String) :
    List PyVal → Nat → Except PyErr (List ResultItem)
  | [], _ => .ok []
  | post :: rest, i => do
    let post_data ← pyGet post "data" (.dict [])
    let skip ← reddit_should_skip post post_data
    if skip then redditItemsLoop provider rest (i + 1)
    else do
      let title ← pyGet post_data "title" (.str "")
      let permalink ← pyGet post_data "permalink" (.str "")
      let snippet ← reddit_snippet post_data
      let subreddit ← pyGet post_data "subreddit" (.str "")
      let postScore ← pyGet post_data "score" (.int 0)
      let numComments ← pyGet post_data "num_comments" (.int 0)
      let createdUtc ← pyGet post_data "created_utc" .none
      let author ← pyGet post_data "author" (.str "")
      let isSelf ← pyGet post_data "is_self" (.bool false)
      let domain ← pyGet post_data "domain" (.str "")
      let tail ← redditItemsLoop provider rest (i + 1)
      .ok ({ title := title,
             url := .str ("https://reddit.com" ++ pyStr permalink),
             snippet := snippet, provider := provider,
             score := mkRat (80 - (i : Int)) 100,
             metadata := [("subreddit", subreddit), ("score", postScore),
               ("num_comments", numComments), ("created_utc", createdUtc),
               ("author", author), ("is_self", isSelf),
               ("domain", domain)] } :: tail)

/-- `parse_reddit_results` (lines 450-481). -/
def parse_reddit_results (data : PyVal) (provider query : String) :
    Except PyErr ParserOut := do
  let dd ← pyGet data "data" (.dict [])
  let children ← pyGet dd "children" (.list [])
  let xs ← pyIterate children
  let items ← redditItemsLoop provider xs 0
  let ddB ← pyGet data "data" (.dict [])
  let dist ← pyGet ddB "dist" (.int 0)
  .ok { items := items, total_results := some dist }

/-- The conditional license lookup of the GitHub loop (line 502):
`repo.get("license", {}).get("name") if repo.get("license") else None`,
condition first. -/
def github_license_name (repo : PyVal) : Except PyErr PyVal := do
  let licenseV ← pyGet repo "license" .none
  if pyTruthy licenseV then do
    let l ← pyGet repo "license" (.dict [])
    pyGet l "name" .none
  else pure PyVal.none

/-- Loop body of `parse_github_results`, score `0.8 - i * 0.01` (the rational
`(80 - i)/100`), with the chained `owner.login` lookup and the conditional
`license.name` lookup. -/
def githubItemsLoop (provider : String) :
    List PyVal → Nat → Except PyErr (List ResultItem)
  | [], _ => .ok []
  | repo :: rest, i => do
    let title ← pyGet repo "full_name" (.str "")
    let url ← pyGet repo "html_url" (.str "")
    let snippet ← pyGet repo "description" (.str "")
    let language ← pyGet repo "language" .none
    let stars ← pyGet repo "stargazers_count" (.int 0)
    let forks ← pyGet repo "forks_count" (.int 0)
    let openIssues ← pyGet repo "open_issues_count" (.int 0)
    let createdAt ← pyGet repo "created_at" .none
    let updatedAt ← pyGet repo "updated_at" .none
    let owner ← pyGet repo "owner" (.dict [])
    let login ← pyGet owner "login" (.str "")
    let licenseName ← github_license_name repo
    let tail ← githubItemsLoop provider rest (i + 1)
    .ok ({ title := title, url := url, snippet := snippet,
           provider := provider, score := mkRat (80 - (i : Int)) 100,
           metadata := [("language", language), ("stars", stars),
             ("forks", forks), ("open_issues", openIssues),
             ("created_at", createdAt), ("updated_at", updatedAt),
             ("owner", login), ("license", licenseName)] } :: tail)

/-- `parse_github_results` (lines 483-509). -/
def parse_github_results (data : PyVal) (provider query : String) :
    Except PyErr ParserOut := do
  let raw ← pyGet data "items" (.list [])
  let xs ← pyIterate raw
  let items ← githubItemsLoop provider xs 0
  let tot ← pyGet data "total_count" (.int 0)
  .ok { items := items, total_results := some tot }

/-- `parse_basic_results` (lines 511-517), the fallback normalizer. -/
def parse_basic_results (data : PyVal) (provider query : String) :
    Except PyErr ParserOut :=
  .ok { items := [], total_results := some (.int 0),
        error := some ("No parser available for " ++ provider) }

/-- `getattr(self, parser_name, self.parse_basic_results)` followed by the
call: dispatch to a normalizer by its registered name, falling back to
`parse_basic_results` for unknown names. -/
def run_response_normalizer (key : String) (data : PyVal)
    (provider query : String) : Except PyErr ParserOut :=
  match key with
  | "parse_google_results" => parse_google_results data provider query
  | "parse_bing_results" => parse_bing_results data provider query
  | "parse_duckduckgo_results" => parse_duckduckgo_results data provider query
  | "parse_reddit_results" => parse_reddit_results data provider query
  | "parse_github_results" => parse_github_results data provider query
  | _ => parse_basic_results data provider query

/-! ## Dispatcher and aggregation (`search_service.py` lines 128-346) -/

/-- Outcome of the one HTTP interaction a provider call performs: an exception
raised by the request/JSON machinery (caught by the `except Exception`
clause), an `asyncio.TimeoutError`, or a completed response with a status
code and - when the status is 200 - the decoded JSON body. -/
inductive FetchResult where
  | raised (msg : String)
  | timedOut
  | response (status : Nat) (body : PyVal)

/-- The keyword arguments of the `value.format(...)` call in the parameter
loop (lines 284-294).  CPython evaluates all keyword arguments before
formatting, so `page=(offset // limit) + 1` raises `ZeroDivisionError` when
`limit == 0` regardless of which template is being formatted; `//` is floor
division (`Int.fdiv`).  The arguments are evaluated once here rather than per
loop iteration, which is equivalent because every registry entry has at least
one parameter. -/
def format_call_args (query : String) (limit offset : Int)
    (safe_search : Bool) (region language api_key search_engine_id : String) :
    List (String × String) :=
  [("api_key", api_key), ("query", quote_plus query),
    ("limit", toString limit), ("offset", toString offset),
    ("page", toString (offset.fdiv limit + 1)),
    ("safe_search", if safe_search then "moderate" else "off"),
    ("region", region), ("language", language),
    ("search_engine_id", search_engine_id)]

/-- The same keyword arguments with the `limit == 0` division failure. -/
def buildFormatArgs (query : String) (limit offset : Int) (safe_search : Bool)
    (region language api_key search_engine_id : String) :
    Except PyErr (List (String × String)) :=
  if limit = 0 then .error .zeroDivisionError
  else .ok (format_call_args query limit offset safe_search region language
    api_key search_engine_id)

/-- The keyword arguments of the header `value.format(...)` call
(lines 305-308). -/
def headerFormatArgs (api_key : String) : List (String × String) :=
  [("api_key", api_key), ("user_agent", "PilotBrowser/1.0")]

/-- The normalizer call inside the `try` block (lines 332-338 with the
`except Exception` clause at 344-346): a normalizer exception is caught and
converted into an error dict with an empty `items` list. -/
def normalize_or_error (key : String) (body : PyVal)
    (provider query : String) : ParserOut :=
  match run_response_normalizer key body provider query with
  | .ok out => out
  | .error e => { items := [], error := some (pyErrStr e) }

/-- `SearchService._search_provider` (lines 240-346): formats parameters and
headers for the provider, performs the HTTP interaction described by `fetch`,
and converts every request-level failure (timeout, exception, non-200 status)
or normalizer exception into an error dict with an empty `items` list.  The
exceptions that escape are exactly those raised before the `try` block:
`ValueError` for an unregistered provider and `ZeroDivisionError` from the
parameter formatting when `limit == 0`. -/
def search_provider (provider query : String) (limit offset : Int)
    (safe_search : Bool) (region language : String)
    (fetch : String → FetchResult) : Except PyErr ParserOut :=
  match SEARCH_PROVIDERS_config provider with
  | Option.none =>
    .error (.valueError ("Unsupported search provider: " ++ provider))
  | some cfg => do
    let api_key := settings_api_key provider
    let args ← buildFormatArgs query limit offset safe_search region language
      api_key (settings_search_engine_id provider)
    let _params ← formatParamsList cfg.params args
    let _headers ← formatParamsList cfg.headers (headerFormatArgs api_key)
    match fetch provider with
    | .raised msg => .ok { items := [], error := some msg }
    | .timedOut => .ok { items := [], error := some "Request timed out" }
    | .response status body =>
      if status ≠ 200 then
        .ok { items := [], error := some ("API error: " ++ toString status) }
      else
        .ok (normalize_or_error cfg.responseParserKey body provider query)

/-- Provider defaulting and filtering of `search` (lines 158-163): when no
providers are given (or the given list is empty, which is falsy), all
`SearchProvider` enum values are used; the list is then filtered to the
registered providers. -/
def resolve_providers (providers : Option (List String)) : List String :=
  let ps := match providers with
    | Option.none => allProviderValues
    | some [] => allProviderValues
    | some ps => ps
  ps.filter (fun p => (SEARCH_PROVIDERS_config p).isSome)

/-- One provider call per resolved provider; `asyncio.gather` with
`return_exceptions=True` preserves input order and represents a raised
exception as a value (here the `.error` branch). -/
def gathered_results (ps : List String) (query : String) (limit offset : Int)
    (safe_search : Bool) (region language : String)
    (fetch : String → FetchResult) : List (Except PyErr ParserOut) :=
  ps.map (fun p =>
    search_provider p query limit offset safe_search region language fetch)

/-- The `provider_errors` mapping built by the result loop (lines 190-196):
an entry is recorded only when the gathered value is an exception. -/
def provider_errors_of (ps : List String)
    (gathered : List (Except PyErr ParserOut)) : List (String × String) :=
  (ps.zip gathered).filterMap (fun pr =>
    match pr.2 with
    | .error e => some (pr.1, pyErrStr e)
    | .ok _ => Option.none)

/-- The `aggregated_results` list (lines 198-199): the concatenation of the
`items` of every non-exception result, in gathered order (every dict a
provider call returns contains an `"items"` key and is truthy). -/
def aggregated_items (gathered : List (Except PyErr ParserOut)) :
    List ResultItem :=
  (gathered.filterMap (fun r =>
    match r with
    | .ok out => some out.items
    | .error _ => Option.none)).flatten

/-- Whether a Python value can enter the `seen_urls` set: lists and dicts are
unhashable and make the membership test raise `TypeError`. -/
def pyHashable : PyVal → Bool
  | .list _ => false
  | .dict _ => false
  | _ => true

/-- The URL-deduplication loop (lines 201-209) with its `seen_urls` set: an
item is kept when its `url` value is truthy and not `==`-equal to an already
seen URL; a truthy unhashable URL makes the `url not in seen_urls` test raise
`TypeError`. -/
def dedupLoop (seen : List PyVal) : List ResultItem → Except PyErr (List ResultItem)
  | [] => .ok []
  | r :: rest =>
    if pyTruthy r.url then
      if pyHashable r.url then
        if seen.any (fun u => pyEq u r.url) then dedupLoop seen rest
        else (fun t => r :: t) <$> dedupLoop (r.url :: seen) rest
      else
        .error (.typeError ("unhashable type: '" ++ pyTypeName r.url ++ "'"))
    else
      dedupLoop seen rest

/-- `deduped_results` (lines 201-209). -/
def dedup_results (l : List ResultItem) : Except PyErr (List ResultItem) :=
  dedupLoop [] l

/-- The provider-priority table inside `get_sort_key` (lines 216-222),
including the `.get(..., 10)` default for every other provider string. -/
def provider_rank (p : String) : Nat :=
  if p == "google" then 1
  else if p == "bing" then 2
  else if p == "duckduckgo" then 3
  else if p == "reddit" then 4
  else if p == "github" then 5
  else 10

/-- Python's `str.lower()` on the provider strings (all ASCII): character-wise
lowercasing. -/
def strToLower (s : String) : String :=
  String.mk (s.data.map Char.toLower)

/-- `get_sort_key` (lines 212-223): the tuple
`(-score, provider_rank)` with the provider string lowercased. -/
def get_sort_key (item : ResultItem) : ℚ × Nat :=
  (-item.score, provider_rank (strToLower item.provider))

/-- The order `sorted(..., key=get_sort_key)` sorts by: lexicographic
comparison of the key tuples, exactly Python's tuple ordering. -/
def sortKeyLe (a b : ResultItem) : Prop :=
  (get_sort_key a).1 < (get_sort_key b).1 ∨
    ((get_sort_key a).1 = (get_sort_key b).1 ∧
      (get_sort_key a).2 ≤ (get_sort_key b).2)

instance : DecidableRel sortKeyLe := fun a b =>
  inferInstanceAs (Decidable ((get_sort_key a).1 < (get_sort_key b).1 ∨
    ((get_sort_key a).1 = (get_sort_key b).1 ∧
      (get_sort_key a).2 ≤ (get_sort_key b).2)))

/-- `sorted_results` (line 225).  CPython's `sorted` is a stable sort by the
key; every stable sort by the same total preorder computes the same list, and
`List.insertionSort` is such a sort (stability is proved below as
`sort_results_stable_filter`). -/
def sort_results (l : List ResultItem) : List ResultItem :=
  l.insertionSort sortKeyLe

/-- Python list slicing `xs[a:b]` with full negative-index clamping
semantics; the pagination step uses `sorted_results[offset:offset + limit]`. -/
def pySlice {α : Type} (xs : List α) (a b : Int) : List α :=
  let n : Int := (xs.length : Int)
  let aN := if a < 0 then max 0 (n + a) else min a n
  let bN := if b < 0 then max 0 (n + b) else min b n
  (xs.take bN.toNat).drop aN.toNat

/-- The response dict assembled at lines 230-238. -/
structure SearchResponseDict where
  query : String
  total_results : Nat
  page : Int
  page_size : Int
  results : List ResultItem
  providers_used : List String
  provider_errors : Option (List (String × String))

/-- `SearchService.search` (lines 128-238): resolve providers (raising
`ValueError` when none are valid), gather the per-provider calls, record
exceptions in `provider_errors`, concatenate items, deduplicate by URL, sort
by the composite key, slice the page, and assemble the response; the `page`
field computation `(offset // limit) + 1` raises `ZeroDivisionError` when
`limit == 0`. -/
def search (query : String) (providers : Option (List String))
    (limit offset : Int) (safe_search : Bool) (region language : String)
    (fetch : String → FetchResult) : Except PyErr SearchResponseDict :=
  let ps := resolve_providers providers
  if ps.isEmpty then
    .error (.valueError "No valid search providers specified")
  else
    let gathered :=
      gathered_results ps query limit offset safe_search region language fetch
    let errs := provider_errors_of ps gathered
    let aggregated := aggregated_items gathered
    match dedup_results aggregated with
    | .error e => .error e
    | .ok deduped =>
      let sorted := sort_results deduped
      let paginated := pySlice sorted offset (offset + limit)
      if limit = 0 then .error .zeroDivisionError
      else
        .ok { query := query, total_results := sorted.length,
              page := offset.fdiv limit + 1, page_size := limit,
              results := paginated, providers_used := ps,
              provider_errors := if errs.isEmpty then Option.none
                else some errs }

/-! ## The HTTP route layer (`api/search.py` and the pydantic `SearchQuery`) -/

/-- What the `/search` route surfaces to its caller: a pydantic
`ValidationError` (FastAPI rejects the request body before the handler runs)
or the `HTTPException` the handler's `except` clause raises. -/
inductive ApiError where
  | validationError (detail : String)
  | httpException (statusCode : Nat) (detail : String)
deriving DecidableEq, Repr

/-- The dict the route handler returns (lines 54-58 of `api/search.py`).  The
handler reads `results.get("items", [])`, but the service response dict keys
its page under `"results"` and has no `"items"` key, so this field is always
the default empty list. -/
structure ApiSearchOut where
  query : String
  total_results : Nat
  results : List ResultItem

/-- The pydantic `SearchQuery` field constraints (`models/search.py` lines
38-71) in declaration order: `query` length 1-500, every provider a
`SearchProvider` enum value, `limit` between 1 and 100, `offset`
non-negative, `region` length 2-5 and `language` length 2-10 (their
declared defaults are supplied by the route's caller here).  Messages are
abridged; `None` is returned when the body validates. -/
def validate_search_query (query : String) (providers : Option (List String))
    (limit offset : Int) (region language : String) : Option String :=
  if query.length < 1 ∨ 500 < query.length then
    some "query: ensure value has between 1 and 500 characters"
  else if (match providers with
      | Option.none => true
      | some ps => ps.all (fun p => allProviderValues.contains p)) = false then
    some "providers: value is not a valid enumeration member"
  else if limit < 1 ∨ 100 < limit then
    some "limit: ensure value is between 1 and 100"
  else if offset < 0 then
    some "offset: ensure value is greater than or equal to 0"
  else if region.length < 2 ∨ 5 < region.length then
    some "region: ensure value has between 2 and 5 characters"
  else if language.length < 2 ∨ 10 < language.length then
    some "language: ensure value has between 2 and 10 characters"
  else
    Option.none

/-- The `/search` POST route (`api/search.py` lines 28-65): FastAPI validates
the body as a `SearchQuery` first; the handler then calls the service with
`query.providers or [p.value for p in SearchProvider]` and converts any
exception the service raises into an `HTTPException` with status 500. -/
def api_search (query : String) (providers : Option (List String))
    (limit offset : Int) (safe_search : Bool) (region language : String)
    (fetch : String → FetchResult) : Except ApiError ApiSearchOut :=
  match validate_search_query query providers limit offset region language with
  | some msg => .error (.validationError msg)
  | Option.none =>
    let provList := match providers with
      | some (p :: ps) => p :: ps
      | _ => allProviderValues
    match search query (some provList) limit offset safe_search region
        language fetch with
    | .error e => .error (.httpException 500 ("Search failed: " ++ pyErrStr e))
    | .ok r =>
      .ok { query := query, total_results := r.total_results, results := [] }

/-! ## Order-theoretic facts about the ranking key -/

/-- Items with equal sort keys are related by `sortKeyLe`. -/
theorem sortKeyLe_of_eq {a b : ResultItem}
    (h : get_sort_key a = get_sort_key b) : sortKeyLe a b := by
  right
  constructor
  · exact congrArg Prod.fst h
  · exact Nat.le_of_eq (congrArg Prod.snd h)

instance : IsTotal ResultItem sortKeyLe := by
  constructor
  intro a b
  rcases lt_trichotomy (get_sort_key a).1 (get_sort_key b).1 with h | h | h
  · exact Or.inl (Or.inl h)
  · rcases Nat.le_total (get_sort_key a).2 (get_sort_key b).2 with h2 | h2
    · exact Or.inl (Or.inr ⟨h, h2⟩)
    · exact Or.inr (Or.inr ⟨h.symm, h2⟩)
  · exact Or.inr (Or.inl h)

instance : IsTrans ResultItem sortKeyLe := by
  constructor
  intro a b c hab hbc
  rcases hab with h1 | ⟨h1, h1b⟩
  · rcases hbc with h2 | ⟨h2, h2b⟩
    · exact Or.inl (h1.trans h2)
    · exact Or.inl (h2 ▸ h1)
  · rcases hbc with h2 | ⟨h2, h2b⟩
    · exact Or.inl (h1 ▸ h2)
    · exact Or.inr ⟨h1.trans h2, h1b.trans h2b⟩

/-- If `a` is not `≤` `b` in the ranking order, their keys differ. -/
theorem sort_key_ne_of_not_le {a b : ResultItem} (h : ¬ sortKeyLe a b) :
    get_sort_key a ≠ get_sort_key b :=
  fun he => h (sortKeyLe_of_eq he)

/-- Inserting an item into a list commutes with filtering by an exact sort
key: the inserted item lands in front of the items already carrying its key
(this is the heart of the stability argument for `sort_results`). -/
theorem filter_key_orderedInsert (k : ℚ × Nat) (a : ResultItem) :
    ∀ l : List ResultItem,
      (l.orderedInsert sortKeyLe a).filter
          (fun x => decide (get_sort_key x = k))
        = if get_sort_key a = k then
            a :: l.filter (fun x => decide (get_sort_key x = k))
          else l.filter (fun x => decide (get_sort_key x = k)) := by
  intro l
  induction l with
  | nil =>
    simp [List.orderedInsert, List.filter]
    split <;> simp_all
  | cons b bs ih =>
    rw [List.orderedInsert]
    by_cases hab : sortKeyLe a b
    · rw [if_pos hab]
      by_cases ha : get_sort_key a = k
      · simp [List.filter, ha]
      · simp [List.filter, ha]
    · rw [if_neg hab]
      have hne : get_sort_key a ≠ get_sort_key b := sort_key_ne_of_not_le hab
      by_cases hb : get_sort_key b = k
      · have ha : get_sort_key a ≠ k := fun hh => hne (hh.trans hb.symm)
        simp [List.filter, hb, ha, ih]
      · by_cases ha : get_sort_key a = k
        · simp [List.filter, hb, ha, ih]
        · simp [List.filter, hb, ha, ih]

/-- Stability of `sort_results`: for every exact key value, the subsequence
of items carrying that key is unchanged by the sort, i.e. equal-key items
keep their input order (this is the property Python's stable `sorted`
guarantees). -/
theorem sort_results_stable_filter (k : ℚ × Nat) :
    ∀ l : List ResultItem,
      (sort_results l).filter (fun x => decide (get_sort_key x = k))
        = l.filter (fun x => decide (get_sort_key x = k)) := by
  intro l
  induction l with
  | nil => rfl
  | cons a l ih =>
    have ihs : (List.insertionSort sortKeyLe l).filter
        (fun x => decide (get_sort_key x = k))
        = l.filter (fun x => decide (get_sort_key x = k)) := ih
    show ((l.insertionSort sortKeyLe).orderedInsert sortKeyLe a).filter _ = _
    rw [filter_key_orderedInsert, ihs]
    by_cases ha : get_sort_key a = k
    · simp [List.filter_cons, ha]
    · simp [List.filter_cons, ha]

/-- C4: the ranking step stable-sorts the deduplicated items by the composite
key (descending score, then ascending fixed provider-priority rank per
`provider_rank`): the output is a permutation of the input, sorted under
`sortKeyLe`, equal-key items keep their input order (stability), and any two
output items with equal score and strictly comparable provider ranks appear
with the higher-priority provider strictly first, regardless of input
order. -/
theorem sort_results_ranking (l : List ResultItem) :
    (sort_results l).Perm l
    ∧ List.Sorted sortKeyLe (sort_results l)
    ∧ (∀ k : ℚ × Nat,
        (sort_results l).filter (fun x => decide (get_sort_key x = k))
          = l.filter (fun x => decide (get_sort_key x = k)))
    ∧ ∀ (i j : Fin (sort_results l).length),
        ((sort_results l).get i).score = ((sort_results l).get j).score →
        provider_rank (strToLower ((sort_results l).get i).provider)
            < provider_rank (strToLower ((sort_results l).get j).provider) →
        (i : Nat) < (j : Nat) := by
  refine ⟨List.perm_insertionSort sortKeyLe l,
    List.sorted_insertionSort sortKeyLe l,
    fun k => sort_results_stable_filter k l, ?_⟩
  intro i j hscore hrank
  by_contra hij
  have hji : (j : Nat) ≤ (i : Nat) := Nat.le_of_not_lt hij
  rcases Nat.eq_or_lt_of_le hji with heq | hlt
  · have : i = j := Fin.ext heq.symm
    subst this
    exact Nat.lt_irrefl _ hrank
  · have hsorted : List.Sorted sortKeyLe (sort_results l) :=
      List.sorted_insertionSort sortKeyLe l
    have hrel := hsorted.rel_get_of_lt (a := j) (b := i) hlt
    rcases hrel with hfst | ⟨hfst, hsnd⟩
    · have : (get_sort_key ((sort_results l).get j)).1
          = (get_sort_key ((sort_results l).get i)).1 := by
        show -((sort_results l).get j).score = -((sort_results l).get i).score
        rw [hscore]
      exact absurd hfst (by rw [this]; exact lt_irrefl _)
    · exact absurd hrank (Nat.not_lt.mpr hsnd)

/-- Witness for C4 at a concrete two-item input: a google item and a reddit
item with equal score; the google item sorts strictly first although it
entered second. -/
theorem sort_results_ranking_witness : (0 : Nat) < 1 := by
  have h := (sort_results_ranking
    [{ title := .str "", url := .str "r", snippet := .str "",
       provider := "reddit", score := mkRat 1 2, metadata := [] },
     { title := .str "", url := .str "g", snippet := .str "",
       provider := "google", score := mkRat 1 2, metadata := [] }]).2.2.2
  exact h ⟨0, by decide⟩ ⟨1, by decide⟩ (by decide) (by decide)

/-- C1 (code behavior at the failing input): a search where every requested
provider fails with an HTTP 500 returns normally with an empty item list and
`totalResults = 0`, but with `provider_errors = None`: the per-provider
failure is caught inside `_search_provider` and returned as an error dict
whose `"error"` entry `search` never reads, and `provider_errors` is only
populated from exceptions, which such failures never produce.  The spec
requires a `providerErrors` entry for each failed provider. -/
theorem search_all_providers_fail_drops_errors :
    search "test" (some ["google", "github"]) 10 0 true "us" "en"
        (fun _ => .response 500 (.dict []))
      = .ok { query := "test", total_results := 0, page := 1, page_size := 10,
              results := [], providers_used := ["google", "github"],
              provider_errors := Option.none } := rfl

/-- Every provider surviving `resolve_providers` has a registry entry. -/
theorem mem_resolve_registered {providers : Option (List String)} {p : String}
    (h : p ∈ resolve_providers providers) :
    (SEARCH_PROVIDERS_config p).isSome := by
  unfold resolve_providers at h
  exact (List.mem_filter.mp h).2

/-- With `limit = 0`, every registered provider call raises
`ZeroDivisionError` while formatting its parameters, before any network
interaction. -/
theorem search_provider_limit_zero (p query : String) (offset : Int)
    (safe : Bool) (region language : String) (fetch : String → FetchResult)
    (h : (SEARCH_PROVIDERS_config p).isSome) :
    search_provider p query 0 offset safe region language fetch
      = .error .zeroDivisionError := by
  obtain ⟨cfg, hcfg⟩ := Option.isSome_iff_exists.mp h
  simp only [search_provider, hcfg]
  rfl

/-- A gathered list consisting only of exceptions contributes no items. -/
theorem aggregated_items_of_all_errors :
    ∀ g : List (Except PyErr ParserOut),
      (∀ x ∈ g, ∃ e, x = .error e) → aggregated_items g = [] := by
  intro g
  induction g with
  | nil => intro _; rfl
  | cons x xs ih =>
    intro h
    obtain ⟨e, he⟩ := h x (List.mem_cons_self x xs)
    have hxs : aggregated_items xs = [] := ih (fun y hy => h y (List.mem_cons_of_mem x hy))
    subst he
    simpa [aggregated_items, List.filterMap_cons] using hxs

/-- The deduplication pass can only raise `TypeError` (from an unhashable
URL). -/
theorem dedupLoop_error_is_typeError :
    ∀ (l : List ResultItem) (seen : List PyVal) (e : PyErr),
      dedupLoop seen l = .error e → ∃ m, e = .typeError m := by
  intro l
  induction l with
  | nil => intro seen e h; exact absurd h (by simp [dedupLoop])
  | cons r rest ih =>
    intro seen e h
    rw [dedupLoop] at h
    by_cases ht : pyTruthy r.url
    · rw [if_pos ht] at h
      by_cases hh : pyHashable r.url
      · rw [if_pos hh] at h
        by_cases hseen : seen.any (fun u => pyEq u r.url)
        · rw [if_pos hseen] at h
          exact ih seen e h
        · rw [if_neg hseen] at h
          rcases hrec : dedupLoop (r.url :: seen) rest with e2 | ok2
          · rw [hrec] at h
            cases h
            exact ih _ _ hrec
          · rw [hrec] at h
            cases h
      · rw [if_neg hh] at h
        cases h
        exact ⟨_, rfl⟩
    · rw [if_neg ht] at h
      exact ih seen e h

/-- C10: with `limit = 0` - a value the non-negative-integer interface
admits - and any offset, `SearchService.search` on a request resolving to at
least one provider raises an unhandled `ZeroDivisionError` from the
`(offset // limit) + 1` page computation instead of returning a response;
conversely `ZeroDivisionError` is raised only when `limit = 0`, so within
the non-negative interface the aggregation is total only under `limit ≥ 1`. -/
theorem search_zero_division_iff_limit_zero
    (query : String) (providers : Option (List String)) (limit offset : Int)
    (safe : Bool) (region language : String) (fetch : String → FetchResult)
    (h : resolve_providers providers ≠ []) :
    (search query providers limit offset safe region language fetch
        = .error .zeroDivisionError) ↔ limit = 0 := by
  have hps : (resolve_providers providers).isEmpty = false := by
    simp [List.isEmpty_iff, h]
  constructor
  · intro hs
    by_contra hl
    rw [search] at hs
    rw [hps] at hs
    simp only [Bool.false_eq_true, if_false] at hs
    rcases hded : dedup_results (aggregated_items
        (gathered_results (resolve_providers providers) query limit offset
          safe region language fetch)) with e | deduped
    · rw [hded] at hs
      cases hs
      obtain ⟨m, hm⟩ := dedupLoop_error_is_typeError _ [] _ hded
      exact PyErr.noConfusion hm
    · rw [hded] at hs
      dsimp only at hs
      rw [if_neg hl] at hs
      exact Except.noConfusion hs
  · intro hl
    subst hl
    have hagg : aggregated_items
        (gathered_results (resolve_providers providers) query 0 offset
          safe region language fetch) = [] := by
      apply aggregated_items_of_all_errors
      intro x hx
      obtain ⟨p, hp, hpx⟩ := List.mem_map.mp hx
      refine ⟨.zeroDivisionError, ?_⟩
      rw [← hpx]
      exact search_provider_limit_zero p query offset safe region language
        fetch (mem_resolve_registered hp)
    rw [search, hps]
    simp only [Bool.false_eq_true, if_false]
    rw [hagg]
    rfl

/-- Witness for C10: a concrete call with `limit = 0` raises
`ZeroDivisionError`, and the same call with `limit = 1` does not. -/
theorem search_zero_division_witness :
    search "q" (some ["google"]) 0 5 true "us" "en" (fun _ => .timedOut)
        = .error .zeroDivisionError
      ∧ ¬ (search "q" (some ["google"]) 1 5 true "us" "en"
            (fun _ => .timedOut) = .error .zeroDivisionError) := by
  constructor
  · exact (search_zero_division_iff_limit_zero "q" (some ["google"]) 0 5 true
      "us" "en" (fun _ => .timedOut) (by decide)).mpr rfl
  · intro hcontra
    have h := (search_zero_division_iff_limit_zero "q" (some ["google"]) 1 5
      true "us" "en" (fun _ => .timedOut) (by decide)).mp hcontra
    exact absurd h (by decide)

/-- The URL string of an item (the claims' data model guarantees URLs are
strings; non-string values read as `""` here and the claim theorems below
restrict to string-URL items). -/
def urlStr (r : ResultItem) : String :=
  match r.url with
  | .str s => s
  | _ => ""

/-- Formalization of C5's specification sentence: one pass that drops every
item with an empty URL and keeps an item exactly when its exact URL string
has not occurred earlier - realized by keeping the head and discarding all
later items carrying the same URL string, so the first occurrence wins. -/
def dedupFirstOccurrence : List ResultItem → List ResultItem
  | [] => []
  | x :: xs =>
    if urlStr x = "" then dedupFirstOccurrence xs
    else x :: dedupFirstOccurrence (xs.filter (fun y => urlStr y != urlStr x))
termination_by l => l.length
decreasing_by
  · simp only [List.length_cons]
    exact Nat.lt_succ_self _
  · simp only [List.length_cons]
    exact Nat.lt_succ_of_le (List.length_filter_le _ _)

/-- `==` on strings is symmetric. -/
theorem str_beq_symm (a b : String) : (a == b) = (b == a) := by
  by_cases h : a = b
  · subst h; rfl
  · have h1 : (a == b) = false := by
      rw [beq_eq_false_iff_ne]; exact h
    have h2 : (b == a) = false := by
      rw [beq_eq_false_iff_ne]; exact fun hh => h hh.symm
    rw [h1, h2]

/-- `pyEq` against a string probe, over a list of wrapped strings, is the
string membership test of the `seen_urls` set. -/
theorem any_map_pyEq (ss : List String) (s : String) :
    ((ss.map PyVal.str).any (fun u => pyEq u (PyVal.str s)))
      = ss.any (fun t => t == s) := by
  induction ss with
  | nil => rfl
  | cons t ts ih =>
    show (pyEq (PyVal.str t) (PyVal.str s) || _) = ((t == s) || _)
    rw [ih]
    rfl

/-- The seen-set deduplication loop agrees with the first-occurrence
description on lists of string-URL items, for any prefix of already-seen URL
strings. -/
theorem dedupLoop_str_spec :
    ∀ (l : List ResultItem) (seenS : List String),
      (∀ r ∈ l, ∃ s, r.url = PyVal.str s) →
      dedupLoop (seenS.map PyVal.str) l
        = .ok (dedupFirstOccurrence
            (l.filter (fun y => !(seenS.any (fun t => t == urlStr y))))) := by
  intro l
  induction l with
  | nil =>
    intro seenS _
    simp [dedupLoop, dedupFirstOccurrence]
  | cons r rest ih =>
    intro seenS h
    obtain ⟨s, hurl⟩ := h r (List.mem_cons_self r rest)
    have hrest : ∀ x ∈ rest, ∃ t, x.url = PyVal.str t :=
      fun x hx => h x (List.mem_cons_of_mem r hx)
    have hurlStr : urlStr r = s := by simp [urlStr, hurl]
    rw [dedupLoop, hurl, List.filter_cons, hurlStr, any_map_pyEq]
    by_cases hs : s = ""
    · subst hs
      rw [if_neg (by decide)]
      by_cases hmem : seenS.any (fun t => t == "")
      · rw [hmem]
        simp only [Bool.not_true, Bool.false_eq_true, if_false]
        exact ih seenS hrest
      · rw [Bool.not_eq_true] at hmem
        rw [hmem]
        simp only [Bool.not_false, if_true]
        rw [dedupFirstOccurrence, if_pos hurlStr]
        exact ih seenS hrest
    · have htruthy : pyTruthy (PyVal.str s) = true := by
        simp [pyTruthy, hs]
      rw [if_pos htruthy, if_pos (by rfl)]
      by_cases hmem : seenS.any (fun t => t == s)
      · rw [if_pos hmem, hmem]
        simp only [Bool.not_true, Bool.false_eq_true, if_false]
        exact ih seenS hrest
      · rw [Bool.not_eq_true] at hmem
        rw [if_neg (by rw [hmem]; exact Bool.false_ne_true), hmem]
        simp only [Bool.not_false, if_true]
        rw [dedupFirstOccurrence, if_neg (by rw [hurlStr]; exact hs)]
        have hmap : (PyVal.str s :: seenS.map PyVal.str)
            = ((s :: seenS).map PyVal.str) := rfl
        rw [hmap, ih (s :: seenS) hrest]
        have hfilters :
            (rest.filter (fun y => !((s :: seenS).any (fun t => t == urlStr y))))
              = ((rest.filter (fun y => !(seenS.any (fun t => t == urlStr y)))).filter
                  (fun y => urlStr y != urlStr r)) := by
          rw [List.filter_filter]
          apply List.filter_congr
          intro y _
          rw [List.any_cons, Bool.not_or, hurlStr]
          show (!(s == urlStr y) && _) = ((urlStr y != s) && _)
          rw [str_beq_symm s (urlStr y)]
          rfl
        rw [hfilters]
        rfl

/-- C5: on lists of string-URL items the deduplication pass completes without
raising and returns exactly the first-occurrence-wins list described by the
spec: items with empty URLs are dropped before the merge, and among items
sharing an exact URL string only the earliest (crediting the provider that
reached the merge first) survives, in input order. -/
theorem dedup_results_first_occurrence (l : List ResultItem)
    (h : ∀ r ∈ l, ∃ s, r.url = PyVal.str s) :
    dedup_results l = .ok (dedupFirstOccurrence l) := by
  have hspec := dedupLoop_str_spec l [] h
  have hfilter : (l.filter (fun y => !(([] : List String).any
      (fun t => t == urlStr y)))) = l := by
    simp
  rw [hfilter] at hspec
  exact hspec

/-- Witness for C5 at a concrete four-item input with one duplicate URL and
one empty URL: the duplicate's first occurrence (google) wins, the empty-URL
item disappears. -/
theorem dedup_results_first_occurrence_witness :
    dedup_results
        [{ title := .str "", url := .str "a", snippet := .str "",
           provider := "google", score := 1, metadata := [] },
         { title := .str "", url := .str "", snippet := .str "",
           provider := "google", score := 1, metadata := [] },
         { title := .str "", url := .str "a", snippet := .str "",
           provider := "bing", score := 1, metadata := [] },
         { title := .str "", url := .str "b", snippet := .str "",
           provider := "bing", score := 1, metadata := [] }]
      = .ok
        [{ title := .str "", url := .str "a", snippet := .str "",
           provider := "google", score := 1, metadata := [] },
         { title := .str "", url := .str "b", snippet := .str "",
           provider := "bing", score := 1, metadata := [] }] := by
  rw [dedup_results_first_occurrence _ (by
    intro r hr
    simp only [List.mem_cons, List.not_mem_nil, or_false] at hr
    rcases hr with h | h | h | h <;> (subst h; exact ⟨_, rfl⟩))]
  simp [dedupFirstOccurrence, urlStr, List.filter]

/-- For non-negative `offset` and `limit`, the Python slice
`xs[offset : offset + limit]` is drop-then-take. -/
theorem pySlice_eq_drop_take {α : Type} (xs : List α) (offset limit : Int)
    (ho : 0 ≤ offset) (hl : 0 ≤ limit) :
    pySlice xs offset (offset + limit)
      = (xs.drop offset.toNat).take limit.toNat := by
  unfold pySlice
  dsimp only
  rw [if_neg (by omega), if_neg (by omega)]
  have h1 : (min offset (xs.length : Int)).toNat
      = min offset.toNat xs.length := by omega
  have h2 : (min (offset + limit) (xs.length : Int)).toNat
      = min (offset.toNat + limit.toNat) xs.length := by omega
  rw [h1, h2]
  rcases Nat.le_total offset.toNat xs.length with hle | hge
  · rw [min_eq_left hle]
    rw [List.drop_take]
    have h3 : min (offset.toNat + limit.toNat) xs.length - offset.toNat
        = min limit.toNat (xs.length - offset.toNat) := by omega
    rw [h3]
    rw [List.take_eq_take]
    simp only [List.length_drop]
    omega
  · rw [min_eq_right hge]
    have h4 : min (offset.toNat + limit.toNat) xs.length = xs.length := by
      omega
    rw [h4]
    rw [List.take_length]
    rw [List.drop_eq_nil_of_le hge, List.drop_eq_nil_of_le (le_refl _)]
    rw [List.take_nil]

/-- C3: whenever the aggregation returns (at least one provider resolves, the
deduplication pass succeeds, `limit ≥ 1`, `offset ≥ 0`), the returned items
are exactly the slice `[offset, offset + limit)` of the ranked deduplicated
sequence, `total_results` is the full deduplicated count before slicing, the
page length is `min(limit, totalResults - offset)` when
`offset < totalResults`, and the page is empty - with no error raised, since
`offset` is arbitrary here - when `offset ≥ totalResults`. -/
theorem search_pagination (query : String) (providers : Option (List String))
    (limit offset : Int) (safe : Bool) (region language : String)
    (fetch : String → FetchResult) (deduped : List ResultItem)
    (hoff : 0 ≤ offset) (hlim : 1 ≤ limit)
    (hps : resolve_providers providers ≠ [])
    (hded : dedup_results (aggregated_items (gathered_results
        (resolve_providers providers) query limit offset safe region language
        fetch)) = .ok deduped) :
    ∃ resp, search query providers limit offset safe region language fetch
        = .ok resp
      ∧ resp.results
          = ((sort_results deduped).drop offset.toNat).take limit.toNat
      ∧ resp.total_results = (sort_results deduped).length
      ∧ (offset.toNat < (sort_results deduped).length →
          resp.results.length
            = min limit.toNat ((sort_results deduped).length - offset.toNat))
      ∧ ((sort_results deduped).length ≤ offset.toNat →
          resp.results = []) := by
  have hlz : ¬ limit = 0 := by omega
  have hempty : (resolve_providers providers).isEmpty = false := by
    simp [List.isEmpty_iff, hps]
  rw [search, hempty]
  simp only [Bool.false_eq_true, if_false]
  rw [hded]
  dsimp only
  rw [if_neg hlz]
  have hslice : pySlice (sort_results deduped) offset (offset + limit)
      = ((sort_results deduped).drop offset.toNat).take limit.toNat :=
    pySlice_eq_drop_take _ offset limit hoff (by omega)
  refine ⟨_, rfl, hslice, rfl, ?_, ?_⟩
  · intro hlt
    rw [hslice]
    simp only [List.length_take, List.length_drop]
  · intro hge
    rw [hslice, List.drop_eq_nil_of_le hge, List.take_nil]

/-- Witness for C3: a Google payload with two items, `limit = 1`,
`offset = 1` - the page is the second ranked item, `total_results` is the
pre-slice count `2`. -/
theorem search_pagination_witness :
    ((search "q" (some ["google"]) 1 1 true "us" "en"
        (fun _ => .response 200 (.dict [("items", .list
          [.dict [("link", .str "http://a.com")],
            .dict [("link", .str "http://b.com")]])]))).map
      (fun r => (r.total_results, r.results.length))) = .ok (2, 1) := by
  obtain ⟨resp, hs, hres, htot, hlen, hemp⟩ :=
    search_pagination "q" (some ["google"]) 1 1 true "us" "en"
      (fun _ => .response 200 (.dict [("items", .list
        [.dict [("link", .str "http://a.com")],
          .dict [("link", .str "http://b.com")]])]))
      _ (by decide) (by decide) (by decide) rfl
  rw [hs]
  show Except.ok (resp.total_results, resp.results.length) = .ok (2, 1)
  rw [htot, hres]
  rfl


/-- Every provider call on a registered provider with `limit ≠ 0` returns a
result dict rather than raising: parameter and header formatting always
succeed, and every failure of the HTTP interaction or of the normalizer is
converted into an error dict. -/
theorem search_provider_total (p query : String) (limit offset : Int)
    (safe : Bool) (region language : String) (fetch : String → FetchResult)
    (hreg : (SEARCH_PROVIDERS_config p).isSome) (hlz : ¬ limit = 0) :
    ∃ out, search_provider p query limit offset safe region language fetch
      = .ok out := by
  have hargs : buildFormatArgs query limit offset safe region language
      (settings_api_key p) (settings_search_engine_id p)
      = .ok (format_call_args query limit offset safe region language
        (settings_api_key p) (settings_search_engine_id p)) := by
    rw [buildFormatArgs, if_neg hlz]
  unfold SEARCH_PROVIDERS_config at hreg
  split at hreg
  all_goals first
    | exact absurd hreg (by decide)
    | · rw [search_provider]
        dsimp only [SEARCH_PROVIDERS_config]
        rw [hargs]
        rcases hf : fetch _ with msg | _ | ⟨status, body⟩ <;> simp only [hf]
        · exact ⟨_, rfl⟩
        · exact ⟨_, rfl⟩
        · by_cases hst : status ≠ 200
          · simp only [if_pos hst]
            exact ⟨_, rfl⟩
          · simp only [if_neg hst]
            exact ⟨_, rfl⟩

/-- C7: a parameter or header template whose placeholder resolution raises
`KeyError` (or `IndexError`) is passed through as the literal template value
rather than aborting - exactly the `except (KeyError, IndexError)` fallback -
and the provider request still proceeds: for every registered provider (and
`limit ≠ 0`, see C10) the provider call returns a dict, never an
exception. -/
theorem unresolvable_placeholder_lenient :
    (∀ (t : String) (args : List (String × String)) (k : String),
        formatTemplate t args = .error (.keyError k) →
        format_param t args = .ok t)
    ∧ (∀ (t : String) (args : List (String × String)) (m : String),
        formatTemplate t args = .error (.indexError m) →
        format_param t args = .ok t)
    ∧ ∀ (p query : String) (limit offset : Int) (safe : Bool)
        (region language : String) (fetch : String → FetchResult),
        (SEARCH_PROVIDERS_config p).isSome → ¬ limit = 0 →
        ∃ out, search_provider p query limit offset safe region language fetch
          = .ok out := by
  refine ⟨?_, ?_, ?_⟩
  · intro t args k h
    rw [format_param, h]
  · intro t args m h
    rw [format_param, h]
  · intro p query limit offset safe region language fetch hreg hlz
    exact search_provider_total p query limit offset safe region language
      fetch hreg hlz

/-- Witness for C7: the (unregistered-key) template
`\x7bmissing_credential\x7d` formats to itself, and a concrete Google call
with a timing-out network still returns a dict. -/
theorem unresolvable_placeholder_lenient_witness :
    format_param "{missing_credential}" [("api_key", "k")]
        = .ok "{missing_credential}"
      ∧ (search_provider "google" "q" 10 0 true "us" "en"
          (fun _ => .timedOut)).toOption.isSome = true := by
  constructor
  · exact unresolvable_placeholder_lenient.1 "{missing_credential}"
      [("api_key", "k")] "missing_credential" rfl
  · obtain ⟨out, hout⟩ := unresolvable_placeholder_lenient.2.2 "google" "q"
      10 0 true "us" "en" (fun _ => .timedOut) (by decide) (by decide)
    rw [hout]
    rfl

/-- `s ++ "" = s` for strings. -/
theorem str_append_empty (s : String) : s ++ "" = s := by
  apply String.ext
  rw [String.data_append]
  exact List.append_nil _

/-- C6 counterexample: with region `"u s"` (and query `"a b"`), the value the
dispatcher substitutes for the `gl` parameter of the Google template is the
raw string `"u s"`, not its percent-encoding `"u+s"` - only the query value
(`"a b"` becoming `"a+b"`) is encoded before substitution. -/
theorem outbound_values_not_encoded :
    ((SEARCH_PROVIDERS_config "google").map (fun cfg =>
        formatParamsList cfg.params
          (format_call_args "a b" 10 0 true "u s" "en" "" "")))
        = some (.ok [("key", ""), ("cx", ""), ("q", "a+b"), ("num", "10"),
            ("start", "0"), ("safe", "moderate"), ("hl", "en"),
            ("gl", "u s")])
      ∧ quote_plus "u s" = "u+s"
      ∧ ("u s" : String) ≠ "u+s" := by
  refine ⟨rfl, rfl, by decide⟩

/-- C6 (amended): for every provider of the registry, only the `query` value
is percent-encoded (via `quote_plus`) before substitution; every other
substituted value - region, language, API key, search-engine id, safe-search
value and the numeric paging values - is passed into the outbound parameters
verbatim. -/
theorem only_query_percent_encoded
    (query : String) (limit offset : Int) (safe : Bool)
    (region language api_key engine_id : String) (hlz : ¬ limit = 0) :
    ((SEARCH_PROVIDERS_config "google").map (fun cfg =>
        formatParamsList cfg.params (format_call_args query limit offset safe
          region language api_key engine_id)))
        = some (.ok [("key", api_key), ("cx", engine_id),
            ("q", quote_plus query), ("num", toString limit),
            ("start", toString offset),
            ("safe", if safe then "moderate" else "off"),
            ("hl", language), ("gl", region)])
    ∧ ((SEARCH_PROVIDERS_config "bing").map (fun cfg =>
        formatParamsList cfg.params (format_call_args query limit offset safe
          region language api_key engine_id)))
        = some (.ok [("q", quote_plus query), ("count", toString limit),
            ("offset", toString offset),
            ("safeSearch", if safe then "moderate" else "off"),
            ("mkt", region ++ ("-" ++ language))])
    ∧ ((SEARCH_PROVIDERS_config "duckduckgo").map (fun cfg =>
        formatParamsList cfg.params (format_call_args query limit offset safe
          region language api_key engine_id)))
        = some (.ok [("q", quote_plus query), ("format", "json"),
            ("no_html", "1"), ("no_redirect", "1"),
            ("kp", if safe then "moderate" else "off"),
            ("kl", language), ("region", region)])
    ∧ ((SEARCH_PROVIDERS_config "reddit").map (fun cfg =>
        formatParamsList cfg.params (format_call_args query limit offset safe
          region language api_key engine_id)))
        = some (.ok [("q", quote_plus query), ("limit", toString limit),
            ("after", toString offset), ("restrict_sr", "0"),
            ("sort", "relevance")])
    ∧ ((SEARCH_PROVIDERS_config "github").map (fun cfg =>
        formatParamsList cfg.params (format_call_args query limit offset safe
          region language api_key engine_id)))
        = some (.ok [("q", quote_plus query), ("per_page", toString limit),
            ("page", toString (offset.fdiv limit + 1)), ("sort", "stars"),
            ("order", "desc")]) := by
  refine ⟨?_, ?_, ?_, ?_, ?_⟩
  · have h : ((SEARCH_PROVIDERS_config "google").map (fun cfg =>
        formatParamsList cfg.params (format_call_args query limit offset safe
          region language api_key engine_id)))
        = some (.ok [("key", api_key ++ ""), ("cx", engine_id ++ ""),
            ("q", quote_plus query ++ ""), ("num", toString limit ++ ""),
            ("start", toString offset ++ ""),
            ("safe", (if safe then "moderate" else "off") ++ ""),
            ("hl", language ++ ""), ("gl", region ++ "")]) := rfl
    simpa only [str_append_empty] using h
  · have h : ((SEARCH_PROVIDERS_config "bing").map (fun cfg =>
        formatParamsList cfg.params (format_call_args query limit offset safe
          region language api_key engine_id)))
        = some (.ok [("q", quote_plus query ++ ""),
            ("count", toString limit ++ ""), ("offset", toString offset ++ ""),
            ("safeSearch", (if safe then "moderate" else "off") ++ ""),
            ("mkt", region ++ ("-" ++ (language ++ "")))]) := rfl
    simpa only [str_append_empty] using h
  · have h : ((SEARCH_PROVIDERS_config "duckduckgo").map (fun cfg =>
        formatParamsList cfg.params (format_call_args query limit offset safe
          region language api_key engine_id)))
        = some (.ok [("q", quote_plus query ++ ""), ("format", "json"),
            ("no_html", "1"), ("no_redirect", "1"),
            ("kp", (if safe then "moderate" else "off") ++ ""),
            ("kl", language ++ ""), ("region", region ++ "")]) := rfl
    simpa only [str_append_empty] using h
  · have h : ((SEARCH_PROVIDERS_config "reddit").map (fun cfg =>
        formatParamsList cfg.params (format_call_args query limit offset safe
          region language api_key engine_id)))
        = some (.ok [("q", quote_plus query ++ ""),
            ("limit", toString limit ++ ""), ("after", toString offset ++ ""),
            ("restrict_sr", "0"), ("sort", "relevance")]) := rfl
    simpa only [str_append_empty] using h
  · have h : ((SEARCH_PROVIDERS_config "github").map (fun cfg =>
        formatParamsList cfg.params (format_call_args query limit offset safe
          region language api_key engine_id)))
        = some (.ok [("q", quote_plus query ++ ""),
            ("per_page", toString limit ++ ""),
            ("page", toString (offset.fdiv limit + 1) ++ ""),
            ("sort", "stars"), ("order", "desc")]) := rfl
    simpa only [str_append_empty] using h

/-- Witness for C6's amended statement at concrete inputs. -/
theorem only_query_percent_encoded_witness :
    ((SEARCH_PROVIDERS_config "google").map (fun cfg =>
        formatParamsList cfg.params
          (format_call_args "a b" 10 0 true "us" "en" "k" "c")))
      = some (.ok [("key", "k"), ("cx", "c"), ("q", "a+b"), ("num", "10"),
          ("start", "0"), ("safe", "moderate"), ("hl", "en"),
          ("gl", "us")]) := by
  have h := (only_query_percent_encoded "a b" 10 0 true "us" "en" "k" "c"
    (by decide)).1
  simpa using h


/-- C2's first trigger condition as the claim states it: the request names a
non-empty provider list, every entry of which is unknown to the registry. -/
def zero_valid_providers (providers : Option (List String)) : Prop :=
  match providers with
  | Option.none => False
  | some ps => ps ≠ [] ∧ ∀ p ∈ ps, SEARCH_PROVIDERS_config p = Option.none

/-- C2's second trigger condition: the query violates the 1-500 length
constraint. -/
def query_length_invalid (q : String) : Prop :=
  q.length < 1 ∨ 500 < q.length

/-- C2 counterexample: the request `query="hi"`, `providers=["google"]`,
`limit=0` raises a `ValidationError` (pydantic's `limit ≥ 1` constraint)
although it neither resolves to zero valid providers nor violates the query
length constraint - so "ValidationError exactly when zero providers or bad
query length" is false at this input. -/
theorem validation_error_without_claimed_conditions :
    api_search "hi" (some ["google"]) 0 0 true "us" "en" (fun _ => .timedOut)
        = .error (.validationError "limit: ensure value is between 1 and 100")
      ∧ ¬ zero_valid_providers (some ["google"])
      ∧ ¬ query_length_invalid "hi" := by
  refine ⟨rfl, ?_, ?_⟩
  · intro h
    obtain ⟨-, hall⟩ := h
    exact Option.noConfusion (hall "google" (List.mem_singleton.mpr rfl))
  · intro h
    rcases h with h | h <;> exact absurd h (by decide)

/-- C2 (amended): a query violating the 1-500 length constraint is rejected
with a `ValidationError` before anything else runs - the result is a
constant, independent of the network behaviour - while a request that passes
body validation but resolves to zero registry providers makes the service
raise `ValueError` before dispatch, which the route's `except` clause
surfaces as an HTTP 500 `HTTPException` rather than a `ValidationError`
(again independent of the network).  `ValidationError` is not limited to the
claim's two conditions: any pydantic field violation (limit, offset, region,
language, unknown provider enum value) raises it too, as the counterexample
shows. -/
theorem entry_validation_behavior :
    (∀ (query : String) (providers : Option (List String))
        (limit offset : Int) (safe : Bool) (region language : String)
        (fetch : String → FetchResult),
      query_length_invalid query →
      api_search query providers limit offset safe region language fetch
        = .error (.validationError
            "query: ensure value has between 1 and 500 characters"))
    ∧ (∀ (query : String) (p : String) (tl : List String)
        (limit offset : Int) (safe : Bool) (region language : String)
        (fetch : String → FetchResult),
      validate_search_query query (some (p :: tl)) limit offset region
          language = Option.none →
      zero_valid_providers (some (p :: tl)) →
      api_search query (some (p :: tl)) limit offset safe region language
          fetch
        = .error (.httpException 500
            "Search failed: No valid search providers specified")) := by
  constructor
  · intro query providers limit offset safe region language fetch h
    have hv : validate_search_query query providers limit offset region
        language
        = some "query: ensure value has between 1 and 500 characters" := by
      unfold validate_search_query
      rw [if_pos (show query.length < 1 ∨ 500 < query.length from h)]
    rcases providers with _ | ps
    · rw [api_search, hv]
      exact fun p ps hcontra => Option.noConfusion hcontra
    · rcases ps with _ | ⟨p, tl⟩
      · rw [api_search, hv]
        exact fun p ps hcontra =>
          List.noConfusion (Option.some.inj hcontra)
      · rw [api_search, hv]
  · intro query p tl limit offset safe region language fetch hval hzero
    obtain ⟨-, hall⟩ := hzero
    rw [api_search, hval]
    have hresolve : resolve_providers (some (p :: tl)) = [] := by
      show (p :: tl).filter (fun q => (SEARCH_PROVIDERS_config q).isSome) = []
      rw [List.filter_eq_nil_iff]
      intro a ha
      rw [hall a ha]
      exact Bool.false_ne_true
    have hsearch : search query (some (p :: tl)) limit offset safe region
        language fetch
        = .error (.valueError "No valid search providers specified") := by
      rw [search, hresolve]
      rfl
    dsimp only
    rw [hsearch]
    rfl

/-- Witness for C2's amended statement: an empty query is rejected as a
`ValidationError`; a valid body naming only the unimplemented enum provider
`twitter` (registered in the enum, absent from the registry) is surfaced as
an HTTP 500. -/
theorem entry_validation_behavior_witness :
    api_search "" (some ["google"]) 10 0 true "us" "en" (fun _ => .timedOut)
        = .error (.validationError
            "query: ensure value has between 1 and 500 characters")
      ∧ api_search "hi" (some ["twitter"]) 10 0 true "us" "en"
          (fun _ => .timedOut)
        = .error (.httpException 500
            "Search failed: No valid search providers specified") := by
  constructor
  · exact entry_validation_behavior.1 "" (some ["google"]) 10 0 true "us" "en"
      (fun _ => .timedOut) (by left; decide)
  · refine entry_validation_behavior.2 "hi" "twitter" [] 10 0 true "us" "en"
      (fun _ => .timedOut) rfl ⟨?_, ?_⟩
    · intro h
      cases h
    · intro a ha
      rw [List.mem_singleton] at ha
      subst ha
      rfl

/-- `bind` on an `ok` value reduces. -/
theorem except_bind_ok {ε α β : Type} (a : α) (f : α → Except ε β) :
    (Bind.bind (Except.ok a : Except ε α) f) = f a := rfl

/-- `d.get(k, default)` on a dict never raises: it returns the looked-up
value or the default. -/
theorem pyGet_dict (kvs : List (String × PyVal)) (k : String) (d : PyVal) :
    pyGet (.dict kvs) k d = .ok ((kvs.lookup k).getD d) := by
  show (match (kvs.lookup k : Option PyVal) with
    | some w => (Except.ok w : Except PyErr PyVal)
    | Option.none => .ok d) = .ok ((kvs.lookup k).getD d)
  cases kvs.lookup k <;> rfl

/-- `k in d` on a dict never raises. -/
theorem pyContains_dict (kvs : List (String × PyVal)) (k : String) :
    pyContains k (.dict kvs) = .ok (kvs.any (fun kv => kv.1 == k)) := rfl

/-- A positive key-membership test guarantees the dict lookup succeeds. -/
theorem lookup_isSome_of_any (kvs : List (String × PyVal)) (k : String)
    (h : kvs.any (fun kv => kv.1 == k) = true) :
    ∃ v, kvs.lookup k = some v := by
  induction kvs with
  | nil => exact Bool.noConfusion h
  | cons kv rest ih =>
    rw [List.any_cons, Bool.or_eq_true] at h
    by_cases hk : k == kv.1
    · exact ⟨kv.2, by simp [List.lookup, hk]⟩
    · rcases h with h | h
      · rw [str_beq_symm kv.1 k] at h
        exact absurd h hk
      · obtain ⟨v, hv⟩ := ih h
        exact ⟨v, by simp [List.lookup, hk, hv]⟩

/-- Dict subscription succeeds on a present key. -/
theorem pySubscript_found {kvs : List (String × PyVal)} {k : String}
    {v : PyVal} (h : kvs.lookup k = some v) :
    pySubscript (.dict kvs) k = .ok v := by
  show (match (kvs.lookup k : Option PyVal) with
    | some w => (Except.ok w : Except PyErr PyVal)
    | Option.none => .error (.keyError k)) = .ok v
  rw [h]

/-- Whether a value is a Python dict. -/
def isPyDict : PyVal → Bool
  | .dict _ => true
  | _ => false

/-- Whether a value is a Python int. -/
def isPyInt : PyVal → Bool
  | .int _ => true
  | _ => false

/-- A `cse_image` value the thumbnail extraction can handle: falsy, or a
non-empty list headed by a dict. -/
def cse_image_ok (cv : PyVal) : Bool :=
  match cv with
  | .list (.dict _ :: _) => true
  | v => !pyTruthy v

/-- A `pagemap` value the thumbnail extraction can handle: a dict whose
`cse_image`, when present, satisfies `cse_image_ok`. -/
def pagemap_ok (pmv : PyVal) : Bool :=
  match pmv with
  | .dict pm =>
    (match pm.lookup "cse_image" with
     | Option.none => true
     | some cv => cse_image_ok cv)
  | _ => false

/-- Well-formedness of one Google payload item for the no-throw guarantee:
a dict whose `pagemap`, when present, satisfies `pagemap_ok`; all other
fields are unconstrained and may be missing. -/
def google_item_wf (v : PyVal) : Bool :=
  match v with
  | .dict kvs =>
    (match kvs.lookup "pagemap" with
     | Option.none => true
     | some pmv => pagemap_ok pmv)
  | _ => false

/-- An `items` value: a list of well-formed items. -/
def google_items_ok (v : PyVal) : Bool :=
  match v with
  | .list xs => xs.all google_item_wf
  | _ => false

/-- A `searchInformation` value: a dict whose `totalResults` defaults to an
int. -/
def google_si_ok (v : PyVal) : Bool :=
  match v with
  | .dict si => isPyInt ((si.lookup "totalResults").getD (.int 0))
  | _ => false

/-- Well-formedness of a Google payload: a dict whose (defaulted) `items`
and `searchInformation` fields have the container shapes the normalizer
dereferences.  Any field may be missing. -/
def google_payload_wf (d : PyVal) : Bool :=
  match d with
  | .dict kvs =>
    google_items_ok ((kvs.lookup "items").getD (.list []))
      && google_si_ok ((kvs.lookup "searchInformation").getD (.dict []))
  | _ => false

/-- A truthy well-formed `cse_image` value is a non-empty list headed by a
dict. -/
theorem cse_image_ok_truthy {cv : PyVal} (h4 : cse_image_ok cv = true)
    (ht : pyTruthy cv = true) :
    ∃ c0kvs crest, cv = PyVal.list (.dict c0kvs :: crest) := by
  cases cv with
  | none => exact Bool.noConfusion ht
  | bool b =>
    have h5 : (!pyTruthy (PyVal.bool b)) = true := h4
    rw [ht] at h5
    exact Bool.noConfusion h5
  | int n =>
    have h5 : (!pyTruthy (PyVal.int n)) = true := h4
    rw [ht] at h5
    exact Bool.noConfusion h5
  | float q =>
    have h5 : (!pyTruthy (PyVal.float q)) = true := h4
    rw [ht] at h5
    exact Bool.noConfusion h5
  | str sv =>
    have h5 : (!pyTruthy (PyVal.str sv)) = true := h4
    rw [ht] at h5
    exact Bool.noConfusion h5
  | dict dkv =>
    have h5 : (!pyTruthy (PyVal.dict dkv)) = true := h4
    rw [ht] at h5
    exact Bool.noConfusion h5
  | list cl =>
    cases cl with
    | nil => exact Bool.noConfusion ht
    | cons c0 crest =>
      cases c0 with
      | dict c0kvs => exact ⟨c0kvs, crest, rfl⟩
      | none =>
        have h5 : (!pyTruthy (PyVal.list (PyVal.none :: crest))) = true := h4
        rw [ht] at h5
        exact Bool.noConfusion h5
      | bool b =>
        have h5 : (!pyTruthy (PyVal.list (PyVal.bool b :: crest))) = true := h4
        rw [ht] at h5
        exact Bool.noConfusion h5
      | int n =>
        have h5 : (!pyTruthy (PyVal.list (PyVal.int n :: crest))) = true := h4
        rw [ht] at h5
        exact Bool.noConfusion h5
      | float q =>
        have h5 : (!pyTruthy (PyVal.list (PyVal.float q :: crest))) = true := h4
        rw [ht] at h5
        exact Bool.noConfusion h5
      | str sv =>
        have h5 : (!pyTruthy (PyVal.list (PyVal.str sv :: crest))) = true := h4
        rw [ht] at h5
        exact Bool.noConfusion h5
      | list l2 =>
        have h5 : (!pyTruthy (PyVal.list (PyVal.list l2 :: crest))) = true := h4
        rw [ht] at h5
        exact Bool.noConfusion h5

/-- On a well-formed item the thumbnail extraction never raises. -/
theorem google_image_extract_wf (kvs : List (String × PyVal))
    (hitem : google_item_wf (.dict kvs) = true) :
    ∃ img, google_image_extract (.dict kvs) = .ok img := by
  have hwf1 : (match kvs.lookup "pagemap" with
      | Option.none => true
      | some pmv => pagemap_ok pmv) = true := hitem
  rw [google_image_extract]
  simp only [pyContains_dict, except_bind_ok]
  by_cases hpm : kvs.any (fun kv => kv.1 == "pagemap")
  · simp only [hpm, if_true]
    obtain ⟨pmv, hpmv⟩ := lookup_isSome_of_any kvs "pagemap" hpm
    rw [hpmv] at hwf1
    have hwf2 : pagemap_ok pmv = true := hwf1
    simp only [pySubscript_found hpmv, except_bind_ok]
    cases pmv with
    | none => exact Bool.noConfusion hwf2
    | bool b => exact Bool.noConfusion hwf2
    | int n => exact Bool.noConfusion hwf2
    | float q => exact Bool.noConfusion hwf2
    | str sv => exact Bool.noConfusion hwf2
    | list l2 => exact Bool.noConfusion hwf2
    | dict pm =>
    have hwf3 : (match pm.lookup "cse_image" with
        | Option.none => true
        | some cv => cse_image_ok cv) = true := hwf2
    rw [show pyContains "cse_image" (.dict pm)
      = .ok (pm.any (fun kv => kv.1 == "cse_image")) from rfl]
    simp only [except_bind_ok]
    by_cases hcse : pm.any (fun kv => kv.1 == "cse_image")
    · simp only [hcse, if_true]
      obtain ⟨cv, hcv⟩ := lookup_isSome_of_any pm "cse_image" hcse
      rw [hcv] at hwf3
      have hwf4 : cse_image_ok cv = true := hwf3
      simp only [pySubscript_found hcv, except_bind_ok]
      by_cases htr : pyTruthy cv
      · simp only [htr, if_true]
        obtain ⟨c0kvs, crest, rfl⟩ := cse_image_ok_truthy hwf4 htr
        rw [show pyIndexZero (.list (.dict c0kvs :: crest))
            = .ok (.dict c0kvs) from rfl]
        simp only [except_bind_ok, pyGet_dict]
        exact ⟨_, rfl⟩
      · simp only [htr, if_false, Bool.false_eq_true]
        exact ⟨_, rfl⟩
    · rw [Bool.not_eq_true] at hcse
      simp only [hcse, if_false, Bool.false_eq_true]
      exact ⟨_, rfl⟩
  · rw [Bool.not_eq_true] at hpm
    simp only [hpm, if_false, Bool.false_eq_true]
    exact ⟨_, rfl⟩

/-- The Google item loop neither raises nor drops items on well-formed
items, and scores the item at position `j` (with enumerate starting at `i`)
as `1.0 - (i + j) * 0.01`, i.e. the exact rational `(100 - (i+j))/100`. -/
theorem googleItemsLoop_wf (p : String) :
    ∀ (xs : List PyVal) (i : Nat), xs.all google_item_wf = true →
      ∃ items, googleItemsLoop p xs i = .ok items
        ∧ items.length = xs.length
        ∧ ∀ (j : Nat) (h : j < items.length),
            (items.get ⟨j, h⟩).score
              = mkRat (100 - ((i + j : Nat) : Int)) 100 := by
  intro xs
  induction xs with
  | nil =>
    intro i _
    exact ⟨[], rfl, rfl, fun j h => absurd h (Nat.not_lt_zero j)⟩
  | cons item rest ih =>
    intro i hwf
    rw [List.all_cons, Bool.and_eq_true] at hwf
    obtain ⟨hitem, hrest⟩ := hwf
    obtain ⟨tail, htail, hlen, hscore⟩ := ih (i + 1) hrest
    cases item with
    | none => exact Bool.noConfusion hitem
    | bool b => exact Bool.noConfusion hitem
    | int n => exact Bool.noConfusion hitem
    | float q => exact Bool.noConfusion hitem
    | str sv => exact Bool.noConfusion hitem
    | list l2 => exact Bool.noConfusion hitem
    | dict kvs =>
      obtain ⟨img, himg⟩ := google_image_extract_wf kvs hitem
      refine ⟨{ title := (kvs.lookup "title").getD (.str ""),
                url := (kvs.lookup "link").getD (.str ""),
                snippet := (kvs.lookup "snippet").getD (.str ""),
                provider := p, score := mkRat (100 - (i : Int)) 100,
                metadata := [("displayLink",
                    (kvs.lookup "displayLink").getD (.str "")),
                  ("mime", (kvs.lookup "mime").getD (.str "")),
                  ("fileFormat", (kvs.lookup "fileFormat").getD (.str ""))],
                image_url := img } :: tail, ?_, ?_, ?_⟩
      · rw [googleItemsLoop]
        simp only [pyGet_dict, except_bind_ok, himg, htail]
      · show _ + 1 = _ + 1
        rw [hlen]
      · intro j h
        cases j with
        | zero =>
          show mkRat (100 - ((i : Nat) : Int)) 100 = _
          norm_num
        | succ j =>
          show (tail.get ⟨j, _⟩).score = _
          have harith : i + (j + 1) = (i + 1) + j := by omega
          rw [harith]
          exact hscore j (by
            have hh := h
            simp only [List.length_cons] at hh
            omega)

/-- A well-formed `items` value is a list of well-formed items. -/
theorem google_items_ok_elim {v : PyVal} (h : google_items_ok v = true) :
    ∃ xs, v = .list xs ∧ xs.all google_item_wf = true := by
  cases v with
  | list xs => exact ⟨xs, rfl, h⟩
  | none => exact Bool.noConfusion h
  | bool b => exact Bool.noConfusion h
  | int n => exact Bool.noConfusion h
  | float q => exact Bool.noConfusion h
  | str s => exact Bool.noConfusion h
  | dict kvs => exact Bool.noConfusion h

/-- A Python int is the `int` constructor. -/
theorem isPyInt_elim {v : PyVal} (h : isPyInt v = true) : ∃ n, v = .int n := by
  cases v with
  | int n => exact ⟨n, rfl⟩
  | none => exact Bool.noConfusion h
  | bool b => exact Bool.noConfusion h
  | float q => exact Bool.noConfusion h
  | str s => exact Bool.noConfusion h
  | list xs => exact Bool.noConfusion h
  | dict kvs => exact Bool.noConfusion h

/-- A Python dict is the `dict` constructor. -/
theorem isPyDict_elim {v : PyVal} (h : isPyDict v = true) :
    ∃ kvs, v = .dict kvs := by
  cases v with
  | dict kvs => exact ⟨kvs, rfl⟩
  | none => exact Bool.noConfusion h
  | bool b => exact Bool.noConfusion h
  | int n => exact Bool.noConfusion h
  | float q => exact Bool.noConfusion h
  | str s => exact Bool.noConfusion h
  | list xs => exact Bool.noConfusion h

/-- A well-formed `searchInformation` value is a dict whose defaulted
`totalResults` is an int. -/
theorem google_si_ok_elim {v : PyVal} (h : google_si_ok v = true) :
    ∃ si n, v = .dict si
      ∧ (si.lookup "totalResults").getD (.int 0) = .int n := by
  cases v with
  | dict si =>
    obtain ⟨n, hn⟩ := isPyInt_elim (v := (si.lookup "totalResults").getD (.int 0)) h
    exact ⟨si, n, rfl, hn⟩
  | none => exact Bool.noConfusion h
  | bool b => exact Bool.noConfusion h
  | int n => exact Bool.noConfusion h
  | float q => exact Bool.noConfusion h
  | str s => exact Bool.noConfusion h
  | list xs => exact Bool.noConfusion h

/-- Iterating a Python list yields its elements. -/
theorem pyIterate_list (xs : List PyVal) : pyIterate (.list xs) = .ok xs := rfl

/-- `int()` of an int is the int itself. -/
theorem pyIntCast_int (n : Int) : pyIntCast (.int n) = .ok n := rfl

/-- On a well-formed payload the Google normalizer returns normally, and the
item at index `j` scores exactly `(100 - j)/100`. -/
theorem parse_google_results_spec (kvs : List (String × PyVal))
    (p q : String) (h : google_payload_wf (.dict kvs) = true) :
    ∃ out, parse_google_results (.dict kvs) p q = .ok out
      ∧ ∀ (j : Nat) (hj : j < out.items.length),
          (out.items.get ⟨j, hj⟩).score = mkRat (100 - (j : Int)) 100 := by
  have h1 : (google_items_ok ((kvs.lookup "items").getD (.list []))
      && google_si_ok ((kvs.lookup "searchInformation").getD (.dict [])))
        = true := h
  rw [Bool.and_eq_true] at h1
  obtain ⟨hitems, hsi⟩ := h1
  obtain ⟨xs, hxs, hall⟩ := google_items_ok_elim hitems
  obtain ⟨si, n, hsiv, hn⟩ := google_si_ok_elim hsi
  obtain ⟨items, hloop, hlen, hscore⟩ := googleItemsLoop_wf p xs 0 hall
  refine ⟨{ items := items, total_results := some (.int n) }, ?_, ?_⟩
  · rw [parse_google_results]
    simp only [pyGet_dict, except_bind_ok, hxs, hsiv, hn, pyIterate_list,
      pyIntCast_int, hloop]
  · intro j hj
    have := hscore j hj
    simpa only [Nat.zero_add] using this

/-- Slicing a string keeps its first 200 characters. -/
theorem pySliceTo200_str (s : String) :
    pySliceTo200 (.str s) = .ok (.str (String.mk (s.data.take 200))) := rfl

/-- Concatenating onto a string value succeeds. -/
theorem pyAddStr_str (s suf : String) :
    pyAddStr (.str s) suf = .ok (.str (s ++ suf)) := rfl

/-- A `selftext` value the snippet expression can handle: absent, a string,
or falsy (the falsy branch never slices). -/
def reddit_selftext_ok (pd : List (String × PyVal)) : Bool :=
  match pd.lookup "selftext" with
  | Option.none => true
  | some (.str _) => true
  | some w => !pyTruthy w

/-- A `post["data"]` value the Reddit loop can handle: a dict with a
well-formed `selftext`. -/
def reddit_post_data_ok (v : PyVal) : Bool :=
  match v with
  | .dict pd => reddit_selftext_ok pd
  | _ => false

/-- Well-formedness of one Reddit child post: a dict whose defaulted `data`
is a handleable dict. -/
def reddit_post_wf (v : PyVal) : Bool :=
  match v with
  | .dict kvs => reddit_post_data_ok ((kvs.lookup "data").getD (.dict []))
  | _ => false

/-- A `children` value: a list of well-formed posts. -/
def reddit_children_ok (v : PyVal) : Bool :=
  match v with
  | .list xs => xs.all reddit_post_wf
  | _ => false

/-- A Reddit `data` envelope: a dict whose defaulted `children` is a list of
well-formed posts. -/
def reddit_data_ok (v : PyVal) : Bool :=
  match v with
  | .dict dd => reddit_children_ok ((dd.lookup "children").getD (.list []))
  | _ => false

/-- Well-formedness of a Reddit payload for the no-throw guarantee. -/
def reddit_payload_wf (d : PyVal) : Bool :=
  match d with
  | .dict kvs => reddit_data_ok ((kvs.lookup "data").getD (.dict []))
  | _ => false

/-- Boolean negation truth transfer. -/
theorem bnot_true {b : Bool} (h : (!b) = true) : b = false := by
  cases b with
  | false => rfl
  | true => exact Bool.noConfusion h

/-- Case analysis on a well-formed `selftext` field. -/
theorem reddit_selftext_ok_elim {pd : List (String × PyVal)}
    (h : reddit_selftext_ok pd = true) :
    pd.lookup "selftext" = Option.none
    ∨ (∃ s, pd.lookup "selftext" = some (.str s))
    ∨ (∃ w, pd.lookup "selftext" = some w ∧ pyTruthy w = false) := by
  cases hl : pd.lookup "selftext" with
  | none => exact Or.inl rfl
  | some w =>
    rw [reddit_selftext_ok, hl] at h
    cases w with
    | str s => exact Or.inr (Or.inl ⟨s, rfl⟩)
    | none => exact Or.inr (Or.inr ⟨_, rfl, rfl⟩)
    | bool b =>
      exact Or.inr (Or.inr ⟨_, rfl, bnot_true h⟩)
    | int n =>
      exact Or.inr (Or.inr ⟨_, rfl, bnot_true h⟩)
    | float qq =>
      exact Or.inr (Or.inr ⟨_, rfl, bnot_true h⟩)
    | list xs =>
      exact Or.inr (Or.inr ⟨_, rfl, bnot_true h⟩)
    | dict kvs =>
      exact Or.inr (Or.inr ⟨_, rfl, bnot_true h⟩)

/-- The Reddit skip condition never raises when both the post and its data
are dicts. -/
theorem reddit_should_skip_ok (kvs pd : List (String × PyVal)) :
    ∃ b, reddit_should_skip (.dict kvs) (.dict pd) = .ok b := by
  rw [reddit_should_skip]
  simp only [pyGet_dict, except_bind_ok]
  by_cases hk : (!(pyEq ((kvs.lookup "kind").getD PyVal.none) (.str "t3")))
      = true
  · rw [if_pos hk]
    exact ⟨_, rfl⟩
  · rw [if_neg hk]
    exact ⟨_, rfl⟩

/-- The Reddit snippet expression never raises on a dict with a well-formed
`selftext`. -/
theorem reddit_snippet_wf (pd : List (String × PyVal))
    (h : reddit_selftext_ok pd = true) :
    ∃ sv, reddit_snippet (.dict pd) = .ok sv := by
  rw [reddit_snippet]
  simp only [pyGet_dict, except_bind_ok]
  rcases reddit_selftext_ok_elim h with hl | ⟨s, hl⟩ | ⟨w, hl, hw⟩
  · rw [hl]
    exact ⟨_, rfl⟩
  · rw [hl]
    simp only [Option.getD_some]
    cases htv : pyTruthy (PyVal.str s) with
    | true =>
      simp only [hl, Option.getD_some, htv, if_true, pySliceTo200_str,
        pyAddStr_str, except_bind_ok]
      exact ⟨_, rfl⟩
    | false =>
      simp only [htv, Bool.false_eq_true, if_false]
      exact ⟨_, rfl⟩
  · rw [hl]
    simp only [Option.getD_some, hw, Bool.false_eq_true, if_false]
    exact ⟨_, rfl⟩

/-- A well-formed post-data value is a dict with a well-formed `selftext`. -/
theorem reddit_post_data_ok_elim {v : PyVal}
    (h : reddit_post_data_ok v = true) :
    ∃ pd, v = .dict pd ∧ reddit_selftext_ok pd = true := by
  cases v with
  | dict pd => exact ⟨pd, rfl, h⟩
  | none => exact Bool.noConfusion h
  | bool b => exact Bool.noConfusion h
  | int n => exact Bool.noConfusion h
  | float q => exact Bool.noConfusion h
  | str s => exact Bool.noConfusion h
  | list xs => exact Bool.noConfusion h

/-- A well-formed `children` value is a list of well-formed posts. -/
theorem reddit_children_ok_elim {v : PyVal}
    (h : reddit_children_ok v = true) :
    ∃ xs, v = .list xs ∧ xs.all reddit_post_wf = true := by
  cases v with
  | list xs => exact ⟨xs, rfl, h⟩
  | none => exact Bool.noConfusion h
  | bool b => exact Bool.noConfusion h
  | int n => exact Bool.noConfusion h
  | float q => exact Bool.noConfusion h
  | str s => exact Bool.noConfusion h
  | dict kvs => exact Bool.noConfusion h

/-- A well-formed Reddit `data` envelope is a dict with well-formed
children. -/
theorem reddit_data_ok_elim {v : PyVal} (h : reddit_data_ok v = true) :
    ∃ dd, v = .dict dd
      ∧ reddit_children_ok ((dd.lookup "children").getD (.list [])) = true := by
  cases v with
  | dict dd => exact ⟨dd, rfl, h⟩
  | none => exact Bool.noConfusion h
  | bool b => exact Bool.noConfusion h
  | int n => exact Bool.noConfusion h
  | float q => exact Bool.noConfusion h
  | str s => exact Bool.noConfusion h
  | list xs => exact Bool.noConfusion h

/-- The Reddit item loop never raises on a list of well-formed posts. -/
theorem redditItemsLoop_wf (p : String) :
    ∀ (xs : List PyVal) (i : Nat), xs.all reddit_post_wf = true →
      ∃ items, redditItemsLoop p xs i = .ok items := by
  intro xs
  induction xs with
  | nil => exact fun i _ => ⟨[], rfl⟩
  | cons post rest ih =>
    intro i hwf
    rw [List.all_cons, Bool.and_eq_true] at hwf
    obtain ⟨hpost, hrest⟩ := hwf
    obtain ⟨tail, htail⟩ := ih (i + 1) hrest
    cases post with
    | none => exact Bool.noConfusion hpost
    | bool b => exact Bool.noConfusion hpost
    | int n => exact Bool.noConfusion hpost
    | float q => exact Bool.noConfusion hpost
    | str s => exact Bool.noConfusion hpost
    | list l2 => exact Bool.noConfusion hpost
    | dict kvs =>
      have h1 : reddit_post_data_ok ((kvs.lookup "data").getD (.dict []))
          = true := hpost
      obtain ⟨pd, hpd, hsel⟩ := reddit_post_data_ok_elim h1
      obtain ⟨b, hskip⟩ := reddit_should_skip_ok kvs pd
      obtain ⟨sv, hsv⟩ := reddit_snippet_wf pd hsel
      rw [redditItemsLoop]
      simp only [pyGet_dict, except_bind_ok, hpd, hskip]
      cases b with
      | true =>
        simp only [if_true]
        exact ⟨tail, htail⟩
      | false =>
        simp only [Bool.false_eq_true, if_false, pyGet_dict, except_bind_ok,
          hsv, htail]
        exact ⟨_, rfl⟩

/-- On a well-formed payload the Reddit normalizer returns normally. -/
theorem parse_reddit_results_wf (d : PyVal) (p q : String)
    (h : reddit_payload_wf d = true) :
    ∃ out, parse_reddit_results d p q = .ok out := by
  cases d with
  | none => exact Bool.noConfusion h
  | bool b => exact Bool.noConfusion h
  | int n => exact Bool.noConfusion h
  | float qq => exact Bool.noConfusion h
  | str s => exact Bool.noConfusion h
  | list xs => exact Bool.noConfusion h
  | dict kvs =>
    have h1 : reddit_data_ok ((kvs.lookup "data").getD (.dict [])) = true := h
    obtain ⟨dd, hdd, hch⟩ := reddit_data_ok_elim h1
    obtain ⟨xs, hxs, hall⟩ := reddit_children_ok_elim hch
    obtain ⟨items, hloop⟩ := redditItemsLoop_wf p xs 0 hall
    rw [parse_reddit_results]
    simp only [pyGet_dict, except_bind_ok, hdd, hxs, pyIterate_list, hloop]
    exact ⟨_, rfl⟩

/-- A `license` field the conditional lookup can handle: absent, a dict, or
falsy (the falsy branch never dereferences it). -/
def github_license_ok (kvs : List (String × PyVal)) : Bool :=
  match kvs.lookup "license" with
  | Option.none => true
  | some (.dict _) => true
  | some w => !pyTruthy w

/-- Well-formedness of one GitHub repo item: a dict whose defaulted `owner`
is a dict and whose `license` is handleable. -/
def github_repo_wf (v : PyVal) : Bool :=
  match v with
  | .dict kvs =>
    isPyDict ((kvs.lookup "owner").getD (.dict [])) && github_license_ok kvs
  | _ => false

/-- A GitHub `items` value: a list of well-formed repos. -/
def github_items_ok (v : PyVal) : Bool :=
  match v with
  | .list xs => xs.all github_repo_wf
  | _ => false

/-- Well-formedness of a GitHub payload for the no-throw guarantee. -/
def github_payload_wf (d : PyVal) : Bool :=
  match d with
  | .dict kvs => github_items_ok ((kvs.lookup "items").getD (.list []))
  | _ => false

/-- Case analysis on a well-formed `license` field. -/
theorem github_license_ok_elim {kvs : List (String × PyVal)}
    (h : github_license_ok kvs = true) :
    kvs.lookup "license" = Option.none
    ∨ (∃ l, kvs.lookup "license" = some (.dict l))
    ∨ (∃ w, kvs.lookup "license" = some w ∧ pyTruthy w = false) := by
  cases hl : kvs.lookup "license" with
  | none => exact Or.inl rfl
  | some w =>
    rw [github_license_ok, hl] at h
    cases w with
    | dict l => exact Or.inr (Or.inl ⟨l, rfl⟩)
    | none => exact Or.inr (Or.inr ⟨_, rfl, rfl⟩)
    | bool b => exact Or.inr (Or.inr ⟨_, rfl, bnot_true h⟩)
    | int n => exact Or.inr (Or.inr ⟨_, rfl, bnot_true h⟩)
    | float qq => exact Or.inr (Or.inr ⟨_, rfl, bnot_true h⟩)
    | str s => exact Or.inr (Or.inr ⟨_, rfl, bnot_true h⟩)
    | list xs => exact Or.inr (Or.inr ⟨_, rfl, bnot_true h⟩)

/-- The conditional license lookup never raises on a repo dict with a
well-formed `license`. -/
theorem github_license_name_wf (kvs : List (String × PyVal))
    (h : github_license_ok kvs = true) :
    ∃ v, github_license_name (.dict kvs) = .ok v := by
  rw [github_license_name]
  simp only [pyGet_dict, except_bind_ok]
  rcases github_license_ok_elim h with hl | ⟨l, hl⟩ | ⟨w, hl, hw⟩
  · rw [hl]
    exact ⟨_, rfl⟩
  · rw [hl]
    simp only [Option.getD_some]
    cases htv : pyTruthy (PyVal.dict l) with
    | true =>
      simp only [hl, Option.getD_some, htv, if_true, pyGet_dict,
        except_bind_ok]
      exact ⟨_, rfl⟩
    | false =>
      simp only [htv, Bool.false_eq_true, if_false]
      exact ⟨_, rfl⟩
  · rw [hl]
    simp only [Option.getD_some, hw, Bool.false_eq_true, if_false]
    exact ⟨_, rfl⟩

/-- The GitHub item loop never raises on a list of well-formed repos. -/
theorem githubItemsLoop_wf (p : String) :
    ∀ (xs : List PyVal) (i : Nat), xs.all github_repo_wf = true →
      ∃ items, githubItemsLoop p xs i = .ok items := by
  intro xs
  induction xs with
  | nil => exact fun i _ => ⟨[], rfl⟩
  | cons repo rest ih =>
    intro i hwf
    rw [List.all_cons, Bool.and_eq_true] at hwf
    obtain ⟨hrepo, hrest⟩ := hwf
    obtain ⟨tail, htail⟩ := ih (i + 1) hrest
    cases repo with
    | none => exact Bool.noConfusion hrepo
    | bool b => exact Bool.noConfusion hrepo
    | int n => exact Bool.noConfusion hrepo
    | float qq => exact Bool.noConfusion hrepo
    | str s => exact Bool.noConfusion hrepo
    | list l2 => exact Bool.noConfusion hrepo
    | dict kvs =>
      have h1 : (isPyDict ((kvs.lookup "owner").getD (.dict []))
          && github_license_ok kvs) = true := hrepo
      rw [Bool.and_eq_true] at h1
      obtain ⟨ho, hlic⟩ := h1
      obtain ⟨own, hown⟩ := isPyDict_elim ho
      obtain ⟨lv, hlv⟩ := github_license_name_wf kvs hlic
      rw [githubItemsLoop]
      simp only [pyGet_dict, except_bind_ok, hown, hlv, htail]
      exact ⟨_, rfl⟩

/-- A well-formed GitHub `items` value is a list of well-formed repos. -/
theorem github_items_ok_elim {v : PyVal} (h : github_items_ok v = true) :
    ∃ xs, v = .list xs ∧ xs.all github_repo_wf = true := by
  cases v with
  | list xs => exact ⟨xs, rfl, h⟩
  | none => exact Bool.noConfusion h
  | bool b => exact Bool.noConfusion h
  | int n => exact Bool.noConfusion h
  | float qq => exact Bool.noConfusion h
  | str s => exact Bool.noConfusion h
  | dict kvs => exact Bool.noConfusion h

/-- On a well-formed payload the GitHub normalizer returns normally. -/
theorem parse_github_results_wf (d : PyVal) (p q : String)
    (h : github_payload_wf d = true) :
    ∃ out, parse_github_results d p q = .ok out := by
  cases d with
  | none => exact Bool.noConfusion h
  | bool b => exact Bool.noConfusion h
  | int n => exact Bool.noConfusion h
  | float qq => exact Bool.noConfusion h
  | str s => exact Bool.noConfusion h
  | list xs => exact Bool.noConfusion h
  | dict kvs =>
    have h1 : github_items_ok ((kvs.lookup "items").getD (.list []))
        = true := h
    obtain ⟨xs, hxs, hall⟩ := github_items_ok_elim h1
    obtain ⟨items, hloop⟩ := githubItemsLoop_wf p xs 0 hall
    rw [parse_github_results]
    simp only [pyGet_dict, except_bind_ok, hxs, pyIterate_list, hloop]
    exact ⟨_, rfl⟩

/-- A DuckDuckGo result/topic list: a Python list of dicts. -/
def ddg_dict_list_ok (v : PyVal) : Bool :=
  match v with
  | .list xs => xs.all isPyDict
  | _ => false

/-- A well-formed DuckDuckGo list value is a list of dicts. -/
theorem ddg_dict_list_ok_elim {v : PyVal} (h : ddg_dict_list_ok v = true) :
    ∃ xs, v = .list xs ∧ xs.all isPyDict = true := by
  cases v with
  | list xs => exact ⟨xs, rfl, h⟩
  | none => exact Bool.noConfusion h
  | bool b => exact Bool.noConfusion h
  | int n => exact Bool.noConfusion h
  | float qq => exact Bool.noConfusion h
  | str s => exact Bool.noConfusion h
  | dict kvs => exact Bool.noConfusion h

/-- The DuckDuckGo `Results` loop neither raises nor drops items on a list
of dicts, and scores the item at position `j` (with enumerate starting at
`i`) as `0.9 - (i + j) * 0.01`, i.e. the rational `(90 - (i+j))/100`. -/
theorem duckduckgoResultsLoop_wf (p : String) :
    ∀ (xs : List PyVal) (i : Nat), xs.all isPyDict = true →
      ∃ items, duckduckgoResultsLoop p xs i = .ok items
        ∧ items.length = xs.length
        ∧ ∀ (j : Nat) (h : j < items.length),
            (items.get ⟨j, h⟩).score
              = mkRat (90 - ((i + j : Nat) : Int)) 100 := by
  intro xs
  induction xs with
  | nil =>
    intro i _
    exact ⟨[], rfl, rfl, fun j h => absurd h (Nat.not_lt_zero j)⟩
  | cons result rest ih =>
    intro i hwf
    rw [List.all_cons, Bool.and_eq_true] at hwf
    obtain ⟨hitem, hrest⟩ := hwf
    obtain ⟨tail, htail, hlen, hscore⟩ := ih (i + 1) hrest
    obtain ⟨kvs, hkvs⟩ := isPyDict_elim hitem
    subst hkvs
    refine ⟨{ title := (kvs.lookup "Text").getD (.str ""),
              url := (kvs.lookup "FirstURL").getD (.str ""),
              snippet := (kvs.lookup "Result").getD (.str ""),
              provider := p, score := mkRat (90 - (i : Int)) 100,
              metadata := [("icon", (kvs.lookup "Icon").getD (.dict []))] }
              :: tail, ?_, ?_, ?_⟩
    · rw [duckduckgoResultsLoop]
      simp only [pyGet_dict, except_bind_ok, htail]
    · show _ + 1 = _ + 1
      rw [hlen]
    · intro j h
      cases j with
      | zero =>
        show mkRat (90 - ((i : Nat) : Int)) 100 = _
        norm_num
      | succ j =>
        show (tail.get ⟨j, _⟩).score = _
        have harith : i + (j + 1) = (i + 1) + j := by omega
        rw [harith]
        exact hscore j (by
          have hh := h
          simp only [List.length_cons] at hh
          omega)

/-- The DuckDuckGo `RelatedTopics` loop never raises on a list of dicts. -/
theorem duckduckgoRelatedLoop_wf (p : String) :
    ∀ (ys : List PyVal) (i : Nat), ys.all isPyDict = true →
      ∃ items, duckduckgoRelatedLoop p ys i = .ok items := by
  intro ys
  induction ys with
  | nil => exact fun i _ => ⟨[], rfl⟩
  | cons topic rest ih =>
    intro i hwf
    rw [List.all_cons, Bool.and_eq_true] at hwf
    obtain ⟨hitem, hrest⟩ := hwf
    obtain ⟨tail, htail⟩ := ih (i + 1) hrest
    obtain ⟨kvs, hkvs⟩ := isPyDict_elim hitem
    subst hkvs
    rw [duckduckgoRelatedLoop]
    simp only [pyContains_dict, except_bind_ok]
    cases hb : kvs.any (fun kv => kv.1 == "FirstURL") with
    | true =>
      simp only [if_true, pyGet_dict, except_bind_ok, htail]
      exact ⟨_, rfl⟩
    | false =>
      simp only [Bool.false_eq_true, if_false]
      exact ⟨tail, htail⟩

/-- The empty related-topics loop yields no items. -/
theorem duckduckgoRelatedLoop_nil (p : String) (i : Nat) :
    duckduckgoRelatedLoop p [] i = .ok [] := rfl

/-- On a payload whose `Results` is a list of dicts and whose
`RelatedTopics` resolves to the empty list, the DuckDuckGo normalizer
returns normally and scores the item at index `j` as `(90 - j)/100`. -/
theorem parse_ddg_results_only_spec (kvs : List (String × PyVal))
    (p q : String)
    (hres : ddg_dict_list_ok ((kvs.lookup "Results").getD (.list [])) = true)
    (hrel : (kvs.lookup "RelatedTopics").getD (.list []) = .list []) :
    ∃ out, parse_duckduckgo_results (.dict kvs) p q = .ok out
      ∧ ∀ (j : Nat) (hj : j < out.items.length),
          (out.items.get ⟨j, hj⟩).score = mkRat (90 - (j : Int)) 100 := by
  obtain ⟨xs, hxs, hall⟩ := ddg_dict_list_ok_elim hres
  obtain ⟨items1, hloop, hlen, hscore⟩ := duckduckgoResultsLoop_wf p xs 0 hall
  refine ⟨{ items := items1,
            total_results := some (.int (items1.length : Int)) }, ?_, ?_⟩
  · rw [parse_duckduckgo_results]
    simp only [pyGet_dict, except_bind_ok, hxs, hrel, pyIterate_list, hloop,
      duckduckgoRelatedLoop_nil, List.append_nil]
  · intro j hj
    have := hscore j hj
    simpa only [Nat.zero_add] using this

/-- `mkRat` over the common denominator 100 is strictly monotone in the
numerator. -/
theorem mkRat_hundred_lt {a b : Int} (h : a < b) :
    mkRat a 100 < mkRat b 100 := by
  rw [Rat.mkRat_eq_div, Rat.mkRat_eq_div]
  have h100 : (0 : ℚ) < ((100 : Nat) : ℚ) := by norm_num
  exact (div_lt_div_iff_of_pos_right h100).mpr (by exact_mod_cast h)

/-- `a/100` is at most one when the numerator is at most 100. -/
theorem mkRat_hundred_le_one {a : Int} (h : a ≤ 100) : mkRat a 100 ≤ 1 := by
  rw [Rat.mkRat_eq_div]
  rw [div_le_one (by norm_num)]
  exact_mod_cast h

/-- `a/100` is positive when the numerator is. -/
theorem mkRat_hundred_pos {a : Int} (h : 0 < a) : 0 < mkRat a 100 := by
  rw [Rat.mkRat_eq_div]
  apply div_pos
  · exact_mod_cast h
  · norm_num

/-- C8, counterexample: the Google normalizer throws on a payload with a
null `items` field - `data.get("items", [])` returns the stored `None`, and
iterating it raises `TypeError`, contradicting the never-throw claim for
payloads with null values. -/
theorem parse_google_results_raises_on_null_items :
    parse_google_results (.dict [("items", PyVal.none)]) "google" "q"
      = .error (.typeError "'NoneType' object is not iterable") := rfl

/-- C8, amended: each registered normalizer (Google, Reddit, GitHub) returns
normally on every payload whose container-shaped fields, when present, have
the shapes the code dereferences (scalar fields may be missing at will and
default to empty strings, zeros or None); a null or wrongly-typed container
field, however, does make the normalizer throw. -/
theorem normalizers_total_on_wf_payloads :
    (∀ (d : PyVal) (p q : String), google_payload_wf d = true →
        ∃ out, parse_google_results d p q = .ok out)
    ∧ (∀ (d : PyVal) (p q : String), reddit_payload_wf d = true →
        ∃ out, parse_reddit_results d p q = .ok out)
    ∧ (∀ (d : PyVal) (p q : String), github_payload_wf d = true →
        ∃ out, parse_github_results d p q = .ok out) := by
  refine ⟨?_, fun d p q h => parse_reddit_results_wf d p q h,
    fun d p q h => parse_github_results_wf d p q h⟩
  intro d p q h
  cases d with
  | none => exact Bool.noConfusion h
  | bool b => exact Bool.noConfusion h
  | int n => exact Bool.noConfusion h
  | float qq => exact Bool.noConfusion h
  | str s => exact Bool.noConfusion h
  | list xs => exact Bool.noConfusion h
  | dict kvs =>
    obtain ⟨out, hout, _⟩ := parse_google_results_spec kvs p q h
    exact ⟨out, hout⟩

/-- C8 witness: the empty dict is a well-formed payload for all three
normalizers and each of them returns normally on it. -/
theorem normalizers_total_on_wf_payloads_witness :
    (google_payload_wf (.dict []) = true
      ∧ (parse_google_results (.dict []) "google" "q").toOption.isSome = true)
    ∧ (reddit_payload_wf (.dict []) = true
      ∧ (parse_reddit_results (.dict []) "reddit" "q").toOption.isSome = true)
    ∧ (github_payload_wf (.dict []) = true
      ∧ (parse_github_results (.dict []) "github" "q").toOption.isSome
          = true) := by
  obtain ⟨hg, hr, hh⟩ := normalizers_total_on_wf_payloads
  refine ⟨⟨by decide, ?_⟩, ⟨by decide, ?_⟩, ⟨by decide, ?_⟩⟩
  · obtain ⟨out, hout⟩ := hg (.dict []) "google" "q" (by decide)
    rw [hout]
    rfl
  · obtain ⟨out, hout⟩ := hr (.dict []) "reddit" "q" (by decide)
    rw [hout]
    rfl
  · obtain ⟨out, hout⟩ := hh (.dict []) "github" "q" (by decide)
    rw [hout]
    rfl

set_option maxRecDepth 10000 in
/-- C9, counterexample: scores are not confined to [0,1] and not strictly
decreasing with rank.  A Google payload with 102 items scores its 102nd item
`1.0 - 101*0.01 = -0.01 < 0`, and a DuckDuckGo payload with 12 `Results` and
one `RelatedTopics` entry scores item 11 at `0.79` but item 12 at `0.8`, an
increase across the two loops of the same normalizer. -/
theorem normalizer_scores_out_of_range_and_non_monotonic :
    ((parse_google_results
        (.dict [("items", .list (List.replicate 102 (.dict [])))])
        "google" "q").toOption.map
      (fun out => (out.items.map ResultItem.score).get? 101))
      = some (some (mkRat (-1) 100))
    ∧ mkRat (-1) 100 < 0
    ∧ ((parse_duckduckgo_results
        (.dict [("Results", .list (List.replicate 12 (.dict []))),
                ("RelatedTopics", .list [.dict [("FirstURL", .str "u")]])])
        "duckduckgo" "q").toOption.map
      (fun out => ((out.items.map ResultItem.score).get? 11,
                   (out.items.map ResultItem.score).get? 12)))
      = some (some (mkRat 79 100), some (mkRat 4 5))
    ∧ mkRat 79 100 < mkRat 4 5 := by
  refine ⟨rfl, ?_, rfl, ?_⟩
  · norm_num [Rat.mkRat_eq_div]
  · norm_num [Rat.mkRat_eq_div]

/-- C9, amended: on well-formed payloads the Google normalizer scores the
item at index `j` exactly `(100 - j)/100` and the DuckDuckGo normalizer
(over its `Results` loop, with no related topics) exactly `(90 - j)/100`;
these scores strictly decrease with rank, never exceed 1, and stay positive
as long as the payload holds at most 100 (resp. 90) items - beyond that the
formulas go negative, and the DuckDuckGo related-topics loop restarts at a
higher 0.8 base, so the original claim's global [0,1] bound and global
strict decrease do not hold. -/
theorem normalizer_scores_decreasing :
    (∀ (kvs : List (String × PyVal)) (p q : String),
      google_payload_wf (.dict kvs) = true →
      ∀ out, parse_google_results (.dict kvs) p q = .ok out →
        (∀ (j : Nat) (hj : j < out.items.length),
            (out.items.get ⟨j, hj⟩).score = mkRat (100 - (j : Int)) 100
            ∧ (out.items.get ⟨j, hj⟩).score ≤ 1
            ∧ (out.items.length ≤ 100 → 0 < (out.items.get ⟨j, hj⟩).score))
        ∧ (∀ (j k : Nat) (hj : j < out.items.length)
              (hk : k < out.items.length), j < k →
            (out.items.get ⟨k, hk⟩).score < (out.items.get ⟨j, hj⟩).score))
    ∧ (∀ (kvs : List (String × PyVal)) (p q : String),
      ddg_dict_list_ok ((kvs.lookup "Results").getD (.list [])) = true →
      (kvs.lookup "RelatedTopics").getD (.list []) = .list [] →
      ∀ out, parse_duckduckgo_results (.dict kvs) p q = .ok out →
        (∀ (j : Nat) (hj : j < out.items.length),
            (out.items.get ⟨j, hj⟩).score = mkRat (90 - (j : Int)) 100
            ∧ (out.items.get ⟨j, hj⟩).score ≤ 1
            ∧ (out.items.length ≤ 90 → 0 < (out.items.get ⟨j, hj⟩).score))
        ∧ (∀ (j k : Nat) (hj : j < out.items.length)
              (hk : k < out.items.length), j < k →
            (out.items.get ⟨k, hk⟩).score < (out.items.get ⟨j, hj⟩).score)) := by
  constructor
  · intro kvs p q h out hout
    obtain ⟨out0, hout0, hformula⟩ := parse_google_results_spec kvs p q h
    rw [hout] at hout0
    obtain rfl : out = out0 := Except.ok.inj hout0
    refine ⟨fun j hj => ⟨hformula j hj, ?_, fun hlen => ?_⟩,
      fun j k hj hk hjk => ?_⟩
    · rw [hformula j hj]
      apply mkRat_hundred_le_one
      omega
    · rw [hformula j hj]
      apply mkRat_hundred_pos
      omega
    · rw [hformula j hj, hformula k hk]
      apply mkRat_hundred_lt
      omega
  · intro kvs p q hres hrel out hout
    obtain ⟨out0, hout0, hformula⟩ := parse_ddg_results_only_spec kvs p q hres hrel
    rw [hout] at hout0
    obtain rfl : out = out0 := Except.ok.inj hout0
    refine ⟨fun j hj => ⟨hformula j hj, ?_, fun hlen => ?_⟩,
      fun j k hj hk hjk => ?_⟩
    · rw [hformula j hj]
      apply mkRat_hundred_le_one
      omega
    · rw [hformula j hj]
      apply mkRat_hundred_pos
      omega
    · rw [hformula j hj, hformula k hk]
      apply mkRat_hundred_lt
      omega

/-- The output of the Google normalizer on a two-empty-item payload, used to
instantiate the score theorem. -/
def gOutW : ParserOut :=
  { items := [
      { title := .str "", url := .str "", snippet := .str "",
        provider := "google", score := mkRat 100 100,
        metadata := [("displayLink", .str ""), ("mime", .str ""),
          ("fileFormat", .str "")],
        image_url := Option.none },
      { title := .str "", url := .str "", snippet := .str "",
        provider := "google", score := mkRat 99 100,
        metadata := [("displayLink", .str ""), ("mime", .str ""),
          ("fileFormat", .str "")],
        image_url := Option.none }],
    total_results := some (.int 0) }

/-- The output of the DuckDuckGo normalizer on a two-empty-result payload,
used to instantiate the score theorem. -/
def dOutW : ParserOut :=
  { items := [
      { title := .str "", url := .str "", snippet := .str "",
        provider := "duckduckgo", score := mkRat 90 100,
        metadata := [("icon", .dict [])] },
      { title := .str "", url := .str "", snippet := .str "",
        provider := "duckduckgo", score := mkRat 89 100,
        metadata := [("icon", .dict [])] }],
    total_results := some (.int 2) }

/-- C9 witness: on concrete two-item Google and DuckDuckGo payloads the
second item scores strictly below the first. -/
theorem normalizer_scores_decreasing_witness :
    (gOutW.items.get ⟨1, Nat.one_lt_two⟩).score
      < (gOutW.items.get ⟨0, Nat.zero_lt_two⟩).score
    ∧ (dOutW.items.get ⟨1, Nat.one_lt_two⟩).score
      < (dOutW.items.get ⟨0, Nat.zero_lt_two⟩).score := by
  constructor
  · exact (normalizer_scores_decreasing.1
      [("items", PyVal.list [PyVal.dict [], PyVal.dict []])] "google" "q"
      (by decide) gOutW rfl).2 0 1 Nat.zero_lt_two Nat.one_lt_two
      Nat.zero_lt_one
  · exact (normalizer_scores_decreasing.2
      [("Results", PyVal.list [PyVal.dict [], PyVal.dict []])] "duckduckgo"
      "q" (by decide) rfl dOutW rfl).2 0 1 Nat.zero_lt_two Nat.one_lt_two
      Nat.zero_lt_one
